import Mathlib

/-!
# Pycairo surface bindings: a shallow embedding of `pycairo-surface.c`

The file `src/platform/osx/pycairo/pycairo-surface.c` wraps cairo surfaces into
Python objects.  The C functions are straight-line glue code whose observable
behaviour is the sequence of calls they make into cairo and into the Python
runtime, the values they return and the fields of the wrapper they touch.

The embedding therefore threads a `World` through every function: the state of
everything outside the binding (cairo and the Python runtime, an arbitrary
type `σ` driven by an `Env`), the chronological log of the calls made so far,
and the Python error indicator as set by the binding.
-/

namespace Pycairo

/-! ## Data model -/

/-- A non-null `cairo_surface_t *`.  A possibly-null pointer is an `Option Ptr`. -/
abbrev Ptr := Nat

/-- The identity of a Python object (a non-null `PyObject *`). -/
abbrev PyObj := Nat

/-- An `unsigned char`. -/
abbrev Byte := Fin 256

/-- A C `double`, carried as its 64-bit pattern: the binding only passes doubles on. -/
abbrev c_double := Nat

/-- The C enum `cairo_status_t` (declared by cairo, `cairo.h`). -/
abbrev cairo_status_t := Nat

abbrev CAIRO_STATUS_SUCCESS : cairo_status_t := 0
abbrev CAIRO_STATUS_NO_MEMORY : cairo_status_t := 1
abbrev CAIRO_STATUS_READ_ERROR : cairo_status_t := 10
abbrev CAIRO_STATUS_WRITE_ERROR : cairo_status_t := 11
abbrev CAIRO_STATUS_SURFACE_FINISHED : cairo_status_t := 12

/-- The C enum `cairo_surface_type_t` (declared by cairo, `cairo.h`).  It is kept as
a number so that tags unknown to this binding can be handed to it. -/
abbrev cairo_surface_type_t := Nat

abbrev CAIRO_SURFACE_TYPE_IMAGE : cairo_surface_type_t := 0
abbrev CAIRO_SURFACE_TYPE_PDF : cairo_surface_type_t := 1
abbrev CAIRO_SURFACE_TYPE_PS : cairo_surface_type_t := 2
abbrev CAIRO_SURFACE_TYPE_XLIB : cairo_surface_type_t := 3
abbrev CAIRO_SURFACE_TYPE_XCB : cairo_surface_type_t := 4
abbrev CAIRO_SURFACE_TYPE_GLITZ : cairo_surface_type_t := 5
abbrev CAIRO_SURFACE_TYPE_QUARTZ : cairo_surface_type_t := 6
abbrev CAIRO_SURFACE_TYPE_WIN32 : cairo_surface_type_t := 7
abbrev CAIRO_SURFACE_TYPE_BEOS : cairo_surface_type_t := 8
abbrev CAIRO_SURFACE_TYPE_DIRECTFB : cairo_surface_type_t := 9
abbrev CAIRO_SURFACE_TYPE_SVG : cairo_surface_type_t := 10

/-- The build configuration: the `CAIRO_HAS_*` feature tests that guard the
conditionally compiled parts of the file. -/
structure Config where
  CAIRO_HAS_PDF_SURFACE : Bool
  CAIRO_HAS_PS_SURFACE : Bool
  CAIRO_HAS_SVG_SURFACE : Bool
  CAIRO_HAS_WIN32_SURFACE : Bool
  CAIRO_HAS_XLIB_SURFACE : Bool
  CAIRO_HAS_QUARTZ_SURFACE : Bool
  deriving DecidableEq, Repr

/-- The Python type objects defined by the file (`Pycairo*Surface_Type`). -/
inductive PyTypeObject where
  | PycairoSurface_Type
  | PycairoImageSurface_Type
  | PycairoPDFSurface_Type
  | PycairoPSSurface_Type
  | PycairoSVGSurface_Type
  | PycairoWin32Surface_Type
  | PycairoXlibSurface_Type
  | PycairoQuartzSurface_Type
  deriving DecidableEq, Repr

/-- The Python error indicator as the binding sets it: the exception class and
its message.  `NativeEngineError` is the exception raised for a cairo status. -/
inductive PyExc where
  | CairoError (msg : String)
  | TypeError (msg : String)
  | ValueError (msg : String)
  | SystemError (msg : String)
  | NativeEngineError (status : cairo_status_t)
  deriving DecidableEq, Repr

/-- The argument tuple handed to `PyObject_CallMethod`: format `"(s#)"` builds one
byte string, format `"(i)"` one integer from a C `int`. -/
inductive PyArg where
  | bytes (data : List Byte)
  | int (n : Int)
  deriving DecidableEq, Repr

/-- The C enum `cairo_format_t` (declared by cairo, `cairo.h`), as the `int` that
`PyArg_ParseTuple` stores. -/
abbrev cairo_format_t := Int

abbrev CAIRO_FORMAT_ARGB32 : cairo_format_t := 0
abbrev CAIRO_FORMAT_RGB24 : cairo_format_t := 1
abbrev CAIRO_FORMAT_A8 : cairo_format_t := 2
abbrev CAIRO_FORMAT_A1 : cairo_format_t := 3
abbrev CAIRO_FORMAT_RGB16_565 : cairo_format_t := 4

/-- The two stream callbacks of the file, as the function pointers handed to cairo. -/
inductive Callback where
  | _write_func
  | _read_func
  deriving DecidableEq, Repr

/-- The cairo getters whose `int` answer a method returns through `PyInt_FromLong`. -/
inductive IntGetter where
  | cairo_surface_get_content
  | cairo_image_surface_get_format
  | cairo_image_surface_get_height
  | cairo_image_surface_get_width
  | cairo_image_surface_get_stride
  | cairo_xlib_surface_get_depth
  | cairo_xlib_surface_get_height
  | cairo_xlib_surface_get_width
  deriving DecidableEq, Repr

/-- The calls the binding makes into cairo and into the Python runtime. -/
inductive Call where
  | cairo_surface_status (surface : Option Ptr)
  | cairo_surface_get_type (surface : Ptr)
  | cairo_surface_destroy (surface : Ptr)
  | cairo_surface_finish (surface : Option Ptr)
  | cairo_surface_flush (surface : Option Ptr)
  | cairo_surface_mark_dirty_rectangle (surface : Option Ptr) (x y width height : Int)
  | cairo_surface_set_device_offset (surface : Option Ptr) (x_offset y_offset : c_double)
  | cairo_surface_set_fallback_resolution (surface : Option Ptr) (x_ppi y_ppi : c_double)
  | cairo_pdf_surface_set_size (surface : Option Ptr) (width height : c_double)
  | cairo_ps_surface_set_size (surface : Option Ptr) (width height : c_double)
  | cairo_ps_surface_dsc_begin_page_setup (surface : Option Ptr)
  | cairo_ps_surface_dsc_begin_setup (surface : Option Ptr)
  | cairo_ps_surface_dsc_comment (surface : Option Ptr) (comment : String)
  | tp_alloc (type : PyTypeObject)
  | tp_free
  | Py_INCREF (o : PyObj)
  | Py_DECREF (o : PyObj)
  | PyObject_CallMethod (o : PyObj) (method : String) (arg : PyArg)
  | PyString_AsString (o : PyObj)
  | PyObject_TypeCheck_PyBaseString_Type (o : PyObj)
  | PyObject_GetAttrString (o : PyObj) (attr : String)
  | PyCallable_Check (o : PyObj)
  | PyObject_AsWriteBuffer (o : PyObj)
  | PyBuffer_FromReadWriteObject
  | cairo_int_getter (getter : IntGetter) (surface : Option Ptr)
  | cairo_surface_get_device_offset (surface : Option Ptr)
  | cairo_font_options_create
  | cairo_surface_get_font_options (surface : Option Ptr)
  | PycairoFontOptions_FromFontOptions
  | cairo_surface_create_similar (surface : Option Ptr) (content width height : Int)
  | cairo_surface_write_to_png (surface : Option Ptr) (filename : Option (List Byte))
  | cairo_surface_write_to_png_stream (surface : Option Ptr) (write_func : Callback)
      (closure : PyObj)
  | cairo_image_surface_create_for_data (buffer : PyObj) (format : cairo_format_t)
      (width height stride : Int)
  | cairo_pdf_surface_create (filename : Option (List Byte)) (width height : c_double)
  | cairo_pdf_surface_create_for_stream (write_func : Callback) (closure : PyObj)
      (width height : c_double)
  | cairo_ps_surface_create (filename : Option (List Byte)) (width height : c_double)
  | cairo_ps_surface_create_for_stream (write_func : Callback) (closure : PyObj)
      (width height : c_double)
  | cairo_svg_surface_create (filename : Option (List Byte)) (width height : c_double)
  | cairo_svg_surface_create_for_stream (write_func : Callback) (closure : PyObj)
      (width height : c_double)
  | cairo_image_surface_get_data (surface : Option Ptr)
  deriving DecidableEq, Repr

/-- Everything outside the binding: cairo and the Python runtime, over a state
`σ` the binding cannot see.  `step` is the effect of a call on that state; the
other fields are the answers the binding reads back. -/
structure Env (σ : Type) where
  step : σ → Call → σ
  /-- The answer of `cairo_surface_status`. -/
  cairo_surface_status : σ → Option Ptr → cairo_status_t
  /-- The answer of `cairo_surface_get_type`. -/
  cairo_surface_get_type : σ → Ptr → cairo_surface_type_t
  /-- Whether `type->tp_alloc (type, 0)` returns an object (`false`: `NULL`). -/
  tp_alloc : σ → PyTypeObject → Bool
  /-- The result of `PyObject_CallMethod`: a new reference, or `none` for `NULL`
  (the method raised, or could not be looked up or called). -/
  PyObject_CallMethod : σ → PyObj → String → PyArg → Option PyObj
  /-- The result of `PyString_AsString`: the bytes of a string object, or `none` for
  `NULL` (the object is not a string). -/
  PyString_AsString : σ → PyObj → Option (List Byte)
  /-- The bytes that follow a string object's buffer in memory. -/
  memory_beyond : σ → PyObj → List Byte
  /-- The bytes now in memory at the address `PyString_AsString` returned for an object:
  the bytes of the string while the object is alive, whatever the allocator left there
  once it has been freed. -/
  string_memory : σ → PyObj → List Byte
  /-- The answer of `PyObject_TypeCheck (o, &PyBaseString_Type)`. -/
  PyObject_TypeCheck_PyBaseString_Type : σ → PyObj → Bool
  /-- The result of `PyObject_GetAttrString`: a new reference, or `none` for `NULL`. -/
  PyObject_GetAttrString : σ → PyObj → String → Option PyObj
  /-- The answer of `PyCallable_Check`. -/
  PyCallable_Check : σ → PyObj → Bool
  /-- The result of `PyObject_AsWriteBuffer`: the length of the writable buffer of the
  object, or `none` for the result -1 (no write access). -/
  PyObject_AsWriteBuffer : σ → PyObj → Option Nat
  /-- The surface a creating call of cairo returns; cairo never returns `NULL` there. -/
  cairo_create : σ → Call → Ptr
  /-- The status a call of cairo returns, for the calls that return one. -/
  cairo_call_status : σ → Call → cairo_status_t
  /-- The answer of a getter of cairo. -/
  cairo_int_getter : σ → IntGetter → Option Ptr → Int
  /-- The answer of `cairo_surface_get_device_offset`. -/
  cairo_surface_get_device_offset : σ → Option Ptr → c_double × c_double
  /-- The object a call of the runtime builds, or `none` for `NULL`. -/
  new_object : σ → Call → Option PyObj
  /-- The answer of `cairo_image_surface_get_data`: the address of the pixel data, or
  `none` for `NULL`. -/
  cairo_image_surface_get_data : σ → Option Ptr → Option Nat

/-- The state threaded through the binding. -/
structure World (σ : Type) where
  /-- The state of cairo and of the Python runtime. -/
  ext : σ
  /-- The calls made so far, oldest first. -/
  calls : List Call
  /-- The Python error indicator as set by the binding (`none`: clear). -/
  exc : Option PyExc

/-- The struct `PycairoSurface` (declared in `pycairo.h`): the Python object header,
the wrapped surface and the object kept alive for it. -/
structure PycairoSurface where
  ob_type : PyTypeObject
  surface : Option Ptr
  base : Option PyObj
  deriving DecidableEq, Repr

/-- What a caller-facing method returns when it does not fail: `None`, an integer, a
pair of doubles, a new surface wrapper, or another Python object. -/
inductive PyValue where
  | None
  | Int (n : Int)
  | Doubles (x y : c_double)
  | Surface (o : PycairoSurface)
  | Object (o : PyObj)
  deriving DecidableEq, Repr

/-- A call that only reads from the outside world: logged, no effect. -/
def World.query {σ : Type} (w : World σ) (c : Call) : World σ :=
  { w with calls := w.calls ++ [c] }

/-- A call that acts on the outside world: logged, and the world steps. -/
def World.invoke {σ : Type} (E : Env σ) (w : World σ) (c : Call) : World σ :=
  { w with ext := E.step w.ext c, calls := w.calls ++ [c] }

/-- The function `PyErr_SetString`. -/
def PyErr_SetString {σ : Type} (e : PyExc) (w : World σ) : World σ :=
  { w with exc := some e }

/-- The number of `cairo_surface_destroy (s)` calls in a log. -/
def destroys (s : Ptr) (cs : List Call) : Nat := cs.count (Call.cairo_surface_destroy s)

/-- The number of `Py_INCREF (x)` calls in a log. -/
def increfs (x : PyObj) (cs : List Call) : Nat := cs.count (Call.Py_INCREF x)

/-- The number of `Py_DECREF (x)` calls in a log. -/
def decrefs (x : PyObj) (cs : List Call) : Nat := cs.count (Call.Py_DECREF x)

/-- The reference count of `x` after the calls of a log, from the count `init` before. -/
def refcount (init : Int) (x : PyObj) (cs : List Call) : Int :=
  init + (increfs x cs : Int) - (decrefs x cs : Int)

/-- Whether a log reads the type tag of any surface. -/
def readsTypeTag (cs : List Call) : Bool :=
  cs.any fun c => match c with
    | Call.cairo_surface_get_type _ => true
    | _ => false

/-! ## C integers -/

/-- The value of an `int` expression: the mathematical result wrapped to 32 bits, two
complement. -/
def c_int (x : Int) : Int := (x + 2 ^ 31) % 2 ^ 32 - 2 ^ 31

/-! ## Helpers declared in `pycairo-private.h` -/

/-- Modelled from the spec: `Pycairo_Check_Status` is declared in `pycairo-private.h`
and defined outside this file.  It "checks the native resource's error status": it
returns 0 for `CAIRO_STATUS_SUCCESS`, and for any other status it sets the Python
error indicator to `NativeEngineError(status)` and returns 1. -/
def Pycairo_Check_Status {σ : Type} (status : cairo_status_t) (w : World σ) : Bool × World σ :=
  if status = CAIRO_STATUS_SUCCESS then (false, w)
  else (true, PyErr_SetString (PyExc.NativeEngineError status) w)

/-- Modelled from the spec: `RETURN_NULL_IF_CAIRO_ERROR(status)` comes from
`pycairo-private.h`.  It "re-surfaces" a status to the caller: when the status is not
`CAIRO_STATUS_SUCCESS` it raises through `Pycairo_Check_Status` and the enclosing
function returns `NULL`.  The result `true` stands for that early return. -/
def RETURN_NULL_IF_CAIRO_ERROR {σ : Type} (status : cairo_status_t) (w : World σ) :
    Bool × World σ :=
  if status ≠ CAIRO_STATUS_SUCCESS then (true, (Pycairo_Check_Status status w).2)
  else (false, w)

/-- Modelled from the spec: `RETURN_NULL_IF_CAIRO_SURFACE_ERROR(surface)` comes from
`pycairo-private.h`.  It "re-checks the resource's error status afterward and surfaces
it": it reads `cairo_surface_status (surface)` and, when that is not
`CAIRO_STATUS_SUCCESS`, raises through `Pycairo_Check_Status` and the enclosing
function returns `NULL`.  The result `true` stands for that early return. -/
def RETURN_NULL_IF_CAIRO_SURFACE_ERROR {σ : Type} (E : Env σ) (surface : Option Ptr)
    (w : World σ) : Bool × World σ :=
  let status := E.cairo_surface_status w.ext surface
  let w := w.query (Call.cairo_surface_status surface)
  if status ≠ CAIRO_STATUS_SUCCESS then (true, (Pycairo_Check_Status status w).2)
  else (false, w)

/-- The function `Py_XINCREF`: nothing for `NULL`. -/
def Py_XINCREF {σ : Type} (E : Env σ) (o : Option PyObj) (w : World σ) : World σ :=
  match o with
  | none => w
  | some x => w.invoke E (Call.Py_INCREF x)

/-- The statement `Py_CLEAR (o->base)`: when the field is not `NULL` it is set to `NULL`
and the reference it held is dropped. -/
def Py_CLEAR_base {σ : Type} (E : Env σ) (o : PycairoSurface) (w : World σ) :
    PycairoSurface × World σ :=
  match o.base with
  | none => (o, w)
  | some x => ({ o with base := none }, w.invoke E (Call.Py_DECREF x))

/-! ## Class Surface -/

/-- The `switch (cairo_surface_get_type (surface))` of `PycairoSurface_FromSurface`
(lines 72-109): the Python type for a type tag, `none` for the `default:` label.  A
`case` under `#if CAIRO_HAS_..._SURFACE` exists only when the feature is configured. -/
def PycairoSurface_FromSurface_type (cfg : Config) (tag : cairo_surface_type_t) :
    Option PyTypeObject :=
  if tag = CAIRO_SURFACE_TYPE_IMAGE then some PyTypeObject.PycairoImageSurface_Type
  else if cfg.CAIRO_HAS_PDF_SURFACE ∧ tag = CAIRO_SURFACE_TYPE_PDF then
    some PyTypeObject.PycairoPDFSurface_Type
  else if cfg.CAIRO_HAS_PS_SURFACE ∧ tag = CAIRO_SURFACE_TYPE_PS then
    some PyTypeObject.PycairoPSSurface_Type
  else if cfg.CAIRO_HAS_SVG_SURFACE ∧ tag = CAIRO_SURFACE_TYPE_SVG then
    some PyTypeObject.PycairoSVGSurface_Type
  else if cfg.CAIRO_HAS_WIN32_SURFACE ∧ tag = CAIRO_SURFACE_TYPE_WIN32 then
    some PyTypeObject.PycairoWin32Surface_Type
  else if cfg.CAIRO_HAS_XLIB_SURFACE ∧ tag = CAIRO_SURFACE_TYPE_XLIB then
    some PyTypeObject.PycairoXlibSurface_Type
  else if cfg.CAIRO_HAS_QUARTZ_SURFACE ∧ tag = CAIRO_SURFACE_TYPE_QUARTZ then
    some PyTypeObject.PycairoQuartzSurface_Type
  else none

/-- The function `PycairoSurface_FromSurface (surface, base)` (lines 59-120).  The
`assert (surface != NULL)` is the type of `surface`; `base` may be `NULL`.  The result
is the new wrapper, or `none` for `NULL`. -/
def PycairoSurface_FromSurface {σ : Type} (cfg : Config) (E : Env σ) (surface : Ptr)
    (base : Option PyObj) (w : World σ) : Option PycairoSurface × World σ :=
  let status := E.cairo_surface_status w.ext (some surface)
  let w := w.query (Call.cairo_surface_status (some surface))
  match Pycairo_Check_Status status w with
  | (true, w) => (none, w.invoke E (Call.cairo_surface_destroy surface))
  | (false, w) =>
    let tag := E.cairo_surface_get_type w.ext surface
    let w := w.query (Call.cairo_surface_get_type surface)
    match PycairoSurface_FromSurface_type cfg tag with
    | none => (none, PyErr_SetString (PyExc.CairoError "Unsupported Surface type") w)
    | some type =>
      let o := E.tp_alloc w.ext type
      let w := w.invoke E (Call.tp_alloc type)
      if o = false then (none, w.invoke E (Call.cairo_surface_destroy surface))
      else
        let w := Py_XINCREF E base w
        (some { ob_type := type, surface := some surface, base := base }, w)

/-- The function `_write_func (closure, data, length)` (lines 126-139), the write
callback handed to cairo.  `data` is the memory the pointer addresses; the `"(s#)"`
argument is the string of its first `length` bytes. -/
def _write_func {σ : Type} (E : Env σ) (closure : PyObj) (data : List Byte) (length : Nat)
    (w : World σ) : cairo_status_t × World σ :=
  let arg := PyArg.bytes (data.take length)
  let res := E.PyObject_CallMethod w.ext closure "write" arg
  let w := w.invoke E (Call.PyObject_CallMethod closure "write" arg)
  match res with
  | none => (CAIRO_STATUS_WRITE_ERROR, w)
  | some r => (CAIRO_STATUS_SUCCESS, w.invoke E (Call.Py_DECREF r))

/-- The release step of `surface_dealloc` (lines 144-148): destroy the surface when
the pointer is not `NULL` and null the pointer, then `Py_CLEAR (o->base)`. -/
def surface_dealloc_release {σ : Type} (E : Env σ) (o : PycairoSurface) (w : World σ) :
    PycairoSurface × World σ :=
  match o.surface with
  | some s =>
    Py_CLEAR_base E { o with surface := none } (w.invoke E (Call.cairo_surface_destroy s))
  | none => Py_CLEAR_base E o w

/-- The function `surface_dealloc (o)` (lines 141-151): the release step, then the
memory of the object is given back through `tp_free`. -/
def surface_dealloc {σ : Type} (E : Env σ) (o : PycairoSurface) (w : World σ) : World σ :=
  let (_, w) := surface_dealloc_release E o w
  w.invoke E Call.tp_free

/-- The outcome of a caller-facing method: the value returned (`none` for `NULL`), the
wrapper it was called on, and the world. -/
structure MethodResult (σ : Type) where
  ret : Option PyValue
  self : PycairoSurface
  world : World σ

/-- The function `surface_finish (o)` (lines 175-182). -/
def surface_finish {σ : Type} (E : Env σ) (o : PycairoSurface) (w : World σ) :
    MethodResult σ :=
  let w := w.invoke E (Call.cairo_surface_finish o.surface)
  let (o, w) := Py_CLEAR_base E o w
  match RETURN_NULL_IF_CAIRO_SURFACE_ERROR E o.surface w with
  | (true, w) => { ret := none, self := o, world := w }
  | (false, w) => { ret := some PyValue.None, self := o, world := w }

/-- The function `surface_flush (o)` (lines 184-190). -/
def surface_flush {σ : Type} (E : Env σ) (o : PycairoSurface) (w : World σ) :
    MethodResult σ :=
  let w := w.invoke E (Call.cairo_surface_flush o.surface)
  match RETURN_NULL_IF_CAIRO_SURFACE_ERROR E o.surface w with
  | (true, w) => { ret := none, self := o, world := w }
  | (false, w) => { ret := some PyValue.None, self := o, world := w }

/-- The arguments of `Surface.mark_dirty` as `PyArg_ParseTupleAndKeywords` with format
`"|iiii"` delivers them: each one may be left out. -/
structure MarkDirtyArgs where
  x : Option Int
  y : Option Int
  width : Option Int
  height : Option Int
  deriving DecidableEq, Repr

/-- The function `surface_mark_dirty (o, args, kwds)` (lines 216-230).  `args` is `none`
when the arguments do not parse; the defaults are `x = 0, y = 0, width = -1,
height = -1`. -/
def surface_mark_dirty {σ : Type} (E : Env σ) (o : PycairoSurface)
    (args : Option MarkDirtyArgs) (w : World σ) : MethodResult σ :=
  match args with
  | none => { ret := none, self := o, world := w }
  | some a =>
    let w := w.invoke E (Call.cairo_surface_mark_dirty_rectangle o.surface
      (a.x.getD 0) (a.y.getD 0) (a.width.getD (-1)) (a.height.getD (-1)))
    match RETURN_NULL_IF_CAIRO_SURFACE_ERROR E o.surface w with
    | (true, w) => { ret := none, self := o, world := w }
    | (false, w) => { ret := some PyValue.None, self := o, world := w }

/-- The function `surface_set_device_offset (o, args)` (lines 232-243).  `args` is `none`
when the two doubles do not parse. -/
def surface_set_device_offset {σ : Type} (E : Env σ) (o : PycairoSurface)
    (args : Option (c_double × c_double)) (w : World σ) : MethodResult σ :=
  match args with
  | none => { ret := none, self := o, world := w }
  | some (x_offset, y_offset) =>
    let w := w.invoke E (Call.cairo_surface_set_device_offset o.surface x_offset y_offset)
    { ret := some PyValue.None, self := o, world := w }

/-- The function `surface_set_fallback_resolution (o, args)` (lines 245-255). -/
def surface_set_fallback_resolution {σ : Type} (E : Env σ) (o : PycairoSurface)
    (args : Option (c_double × c_double)) (w : World σ) : MethodResult σ :=
  match args with
  | none => { ret := none, self := o, world := w }
  | some (x_ppi, y_ppi) =>
    let w := w.invoke E (Call.cairo_surface_set_fallback_resolution o.surface x_ppi y_ppi)
    { ret := some PyValue.None, self := o, world := w }

/-! ## Class ImageSurface: the read callback -/

/-- The call `memcpy (data, str, n)`: the `n` bytes found at `str`, where the memory at
`str` holds `str` and the memory after it holds `beyond`. -/
def memcpy (str beyond : List Byte) (n : Nat) : List Byte := (str ++ beyond).take n

/-- The function `_read_func (closure, data, length)` (lines 435-450), the read callback
handed to cairo.  `length` is an `unsigned int`; format `"(i)"` takes it as an `int`, so
the integer handed to `read` is `length` wrapped to an `int`.  `str` is the address
`PyString_AsString` returns (`none`: `NULL`); the reference to the string is dropped
before `memcpy`, so `memcpy` copies what is in memory at `str` after the `Py_DECREF`.
The second component is what `memcpy` stores into the first `length` bytes of `data`
(`none`: `data` is not written). -/
def _read_func {σ : Type} (E : Env σ) (closure : PyObj) (length : Nat) (w : World σ) :
    cairo_status_t × Option (List Byte) × World σ :=
  let arg := PyArg.int (c_int length)
  let pystr := E.PyObject_CallMethod w.ext closure "read" arg
  let w := w.invoke E (Call.PyObject_CallMethod closure "read" arg)
  match pystr with
  | none => (CAIRO_STATUS_READ_ERROR, none, w)
  | some p =>
    let str := E.PyString_AsString w.ext p
    let w := w.invoke E (Call.PyString_AsString p)
    let w := w.invoke E (Call.Py_DECREF p)
    match str with
    | none => (CAIRO_STATUS_READ_ERROR, none, w)
    | some _ =>
      (CAIRO_STATUS_SUCCESS,
        some (memcpy (E.string_memory w.ext p) (E.memory_beyond w.ext p) length), w)

/-! ## Class PDFSurface -/

/-- The function `pdf_surface_set_size (o, args)` (lines 669-680). -/
def pdf_surface_set_size {σ : Type} (E : Env σ) (o : PycairoSurface)
    (args : Option (c_double × c_double)) (w : World σ) : MethodResult σ :=
  match args with
  | none => { ret := none, self := o, world := w }
  | some (width_in_points, height_in_points) =>
    let w := w.invoke E
      (Call.cairo_pdf_surface_set_size o.surface width_in_points height_in_points)
    { ret := some PyValue.None, self := o, world := w }

/-! ## Class PSSurface -/

/-- The function `ps_surface_dsc_begin_page_setup (o)` (lines 773-779). -/
def ps_surface_dsc_begin_page_setup {σ : Type} (E : Env σ) (o : PycairoSurface)
    (w : World σ) : MethodResult σ :=
  let w := w.invoke E (Call.cairo_ps_surface_dsc_begin_page_setup o.surface)
  match RETURN_NULL_IF_CAIRO_SURFACE_ERROR E o.surface w with
  | (true, w) => { ret := none, self := o, world := w }
  | (false, w) => { ret := some PyValue.None, self := o, world := w }

/-- The function `ps_surface_dsc_begin_setup (o)` (lines 781-787). -/
def ps_surface_dsc_begin_setup {σ : Type} (E : Env σ) (o : PycairoSurface)
    (w : World σ) : MethodResult σ :=
  let w := w.invoke E (Call.cairo_ps_surface_dsc_begin_setup o.surface)
  match RETURN_NULL_IF_CAIRO_SURFACE_ERROR E o.surface w with
  | (true, w) => { ret := none, self := o, world := w }
  | (false, w) => { ret := some PyValue.None, self := o, world := w }

/-- The function `ps_surface_dsc_comment (o, args)` (lines 789-798).  `args` is `none`
when the string does not parse. -/
def ps_surface_dsc_comment {σ : Type} (E : Env σ) (o : PycairoSurface)
    (args : Option String) (w : World σ) : MethodResult σ :=
  match args with
  | none => { ret := none, self := o, world := w }
  | some comment =>
    let w := w.invoke E (Call.cairo_ps_surface_dsc_comment o.surface comment)
    match RETURN_NULL_IF_CAIRO_SURFACE_ERROR E o.surface w with
    | (true, w) => { ret := none, self := o, world := w }
    | (false, w) => { ret := some PyValue.None, self := o, world := w }

/-- The function `ps_surface_set_size (o, args)` (lines 800-810). -/
def ps_surface_set_size {σ : Type} (E : Env σ) (o : PycairoSurface)
    (args : Option (c_double × c_double)) (w : World σ) : MethodResult σ :=
  match args with
  | none => { ret := none, self := o, world := w }
  | some (width_in_points, height_in_points) =>
    let w := w.invoke E
      (Call.cairo_ps_surface_set_size o.surface width_in_points height_in_points)
    { ret := some PyValue.None, self := o, world := w }

/-! ## Class Surface: getters, create_similar and write_to_png -/

/-- The body shared by the getters of the form
`return PyInt_FromLong (cairo_..._get_... (o->surface))`; building the Python integer
is taken to succeed. -/
def PyInt_FromLong_getter {σ : Type} (E : Env σ) (getter : IntGetter) (o : PycairoSurface)
    (w : World σ) : MethodResult σ :=
  let n := E.cairo_int_getter w.ext getter o.surface
  let w := w.query (Call.cairo_int_getter getter o.surface)
  { ret := some (PyValue.Int n), self := o, world := w }

/-- The function `surface_get_content (o)` (lines 192-196). -/
def surface_get_content {σ : Type} (E : Env σ) (o : PycairoSurface) (w : World σ) :
    MethodResult σ :=
  PyInt_FromLong_getter E IntGetter.cairo_surface_get_content o w

/-- The function `image_surface_get_format (o)` (lines 486-490). -/
def image_surface_get_format {σ : Type} (E : Env σ) (o : PycairoSurface) (w : World σ) :
    MethodResult σ :=
  PyInt_FromLong_getter E IntGetter.cairo_image_surface_get_format o w

/-- The function `image_surface_get_height (o)` (lines 492-496). -/
def image_surface_get_height {σ : Type} (E : Env σ) (o : PycairoSurface) (w : World σ) :
    MethodResult σ :=
  PyInt_FromLong_getter E IntGetter.cairo_image_surface_get_height o w

/-- The function `image_surface_get_width (o)` (lines 498-502). -/
def image_surface_get_width {σ : Type} (E : Env σ) (o : PycairoSurface) (w : World σ) :
    MethodResult σ :=
  PyInt_FromLong_getter E IntGetter.cairo_image_surface_get_width o w

/-- The function `image_surface_get_stride (o)` (lines 504-508). -/
def image_surface_get_stride {σ : Type} (E : Env σ) (o : PycairoSurface) (w : World σ) :
    MethodResult σ :=
  PyInt_FromLong_getter E IntGetter.cairo_image_surface_get_stride o w

/-- The function `xlib_surface_get_depth (o)` (lines 1040-1044). -/
def xlib_surface_get_depth {σ : Type} (E : Env σ) (o : PycairoSurface) (w : World σ) :
    MethodResult σ :=
  PyInt_FromLong_getter E IntGetter.cairo_xlib_surface_get_depth o w

/-- The function `xlib_surface_get_height (o)` (lines 1046-1050). -/
def xlib_surface_get_height {σ : Type} (E : Env σ) (o : PycairoSurface) (w : World σ) :
    MethodResult σ :=
  PyInt_FromLong_getter E IntGetter.cairo_xlib_surface_get_height o w

/-- The function `xlib_surface_get_width (o)` (lines 1052-1056). -/
def xlib_surface_get_width {σ : Type} (E : Env σ) (o : PycairoSurface) (w : World σ) :
    MethodResult σ :=
  PyInt_FromLong_getter E IntGetter.cairo_xlib_surface_get_width o w

/-- The function `surface_get_device_offset (o)` (lines 198-204); building the tuple is
taken to succeed. -/
def surface_get_device_offset {σ : Type} (E : Env σ) (o : PycairoSurface) (w : World σ) :
    MethodResult σ :=
  let offset := E.cairo_surface_get_device_offset w.ext o.surface
  let w := w.query (Call.cairo_surface_get_device_offset o.surface)
  { ret := some (PyValue.Doubles offset.1 offset.2), self := o, world := w }

/-- The function `surface_get_font_options (o)` (lines 206-214). -/
def surface_get_font_options {σ : Type} (E : Env σ) (o : PycairoSurface) (w : World σ) :
    MethodResult σ :=
  let w := w.invoke E Call.cairo_font_options_create
  let w := w.invoke E (Call.cairo_surface_get_font_options o.surface)
  let r := E.new_object w.ext Call.PycairoFontOptions_FromFontOptions
  let w := w.invoke E Call.PycairoFontOptions_FromFontOptions
  { ret := r.map PyValue.Object, self := o, world := w }

/-- The function `image_surface_get_data (o)` (lines 480-484). -/
def image_surface_get_data {σ : Type} (E : Env σ) (o : PycairoSurface) (w : World σ) :
    MethodResult σ :=
  let r := E.new_object w.ext Call.PyBuffer_FromReadWriteObject
  let w := w.invoke E Call.PyBuffer_FromReadWriteObject
  { ret := r.map PyValue.Object, self := o, world := w }

/-- The function `surface_create_similar (o, args)` (lines 161-173).  `args` is `none`
when the three integers do not parse. -/
def surface_create_similar {σ : Type} (cfg : Config) (E : Env σ) (o : PycairoSurface)
    (args : Option (Int × Int × Int)) (w : World σ) : MethodResult σ :=
  match args with
  | none => { ret := none, self := o, world := w }
  | some (content, width, height) =>
    let create := Call.cairo_surface_create_similar o.surface content width height
    let surface := E.cairo_create w.ext create
    let w := w.invoke E create
    let r := PycairoSurface_FromSurface cfg E surface none w
    { ret := r.1.map PyValue.Surface, self := o, world := r.2 }

/-- The function `surface_write_to_png (o, file)` (lines 257-285). -/
def surface_write_to_png {σ : Type} (E : Env σ) (o : PycairoSurface) (file : PyObj)
    (w : World σ) : MethodResult σ :=
  let is_string := E.PyObject_TypeCheck_PyBaseString_Type w.ext file
  let w := w.query (Call.PyObject_TypeCheck_PyBaseString_Type file)
  if is_string then
    let filename := E.PyString_AsString w.ext file
    let w := w.invoke E (Call.PyString_AsString file)
    let write := Call.cairo_surface_write_to_png o.surface filename
    let status := E.cairo_call_status w.ext write
    let w := w.invoke E write
    match RETURN_NULL_IF_CAIRO_ERROR status w with
    | (true, w) => { ret := none, self := o, world := w }
    | (false, w) => { ret := some PyValue.None, self := o, world := w }
  else
    let writer := E.PyObject_GetAttrString w.ext file "write"
    let w := w.invoke E (Call.PyObject_GetAttrString file "write")
    match writer with
    | none =>
      { ret := none, self := o,
        world := PyErr_SetString (PyExc.TypeError
          "Surface.write_to_png takes one argument which must be a filename (str), file object, or a file-like object which has a \"write\" method (like StringIO)") w }
    | some wr =>
      let callable := E.PyCallable_Check w.ext wr
      let w := w.query (Call.PyCallable_Check wr)
      if callable = false then
        let w := w.invoke E (Call.Py_DECREF wr)
        { ret := none, self := o,
          world := PyErr_SetString (PyExc.TypeError
            "Surface.write_to_png takes one argument which must be a filename (str), file object, or a file-like object which has a \"write\" method (like StringIO)") w }
      else
        let w := w.invoke E (Call.Py_DECREF wr)
        let write := Call.cairo_surface_write_to_png_stream o.surface Callback._write_func file
        let status := E.cairo_call_status w.ext write
        let w := w.invoke E write
        match RETURN_NULL_IF_CAIRO_ERROR status w with
        | (true, w) => { ret := none, self := o, world := w }
        | (false, w) => { ret := some PyValue.None, self := o, world := w }

/-! ## Class ImageSurface: create_for_data -/

/-- The arguments of `ImageSurface.create_for_data` as `PyArg_ParseTuple` with format
`"Oiii|i"` delivers them; each integer is an `int`, and `stride` may be left out. -/
structure CreateForDataArgs where
  obj : PyObj
  format : cairo_format_t
  width : Int
  height : Int
  stride : Option Int
  deriving DecidableEq, Repr

/-- The block `if (stride < 0) switch (format) ...` of `image_surface_create_for_data`
(lines 403-423): the stride after it, `none` for the `default:` label. -/
def image_surface_create_for_data_stride (format : cairo_format_t) (width stride : Int) :
    Option Int :=
  if stride < 0 then
    if format = CAIRO_FORMAT_ARGB32 ∨ format = CAIRO_FORMAT_RGB24 then
      some (c_int (width * 4))
    else if format = CAIRO_FORMAT_RGB16_565 then some (c_int (width * 2))
    else if format = CAIRO_FORMAT_A8 then some width
    else if format = CAIRO_FORMAT_A1 then some (Int.tdiv (c_int (width + 1)) 8)
    else none
  else some stride

/-- The function `image_surface_create_for_data (type, args)` (lines 377-431).  `args`
is `none` when the arguments do not parse; `stride` starts at -1. -/
def image_surface_create_for_data {σ : Type} (cfg : Config) (E : Env σ)
    (args : Option CreateForDataArgs) (w : World σ) : Option PycairoSurface × World σ :=
  match args with
  | none => (none, w)
  | some a =>
    let res := E.PyObject_AsWriteBuffer w.ext a.obj
    let w := w.invoke E (Call.PyObject_AsWriteBuffer a.obj)
    match res with
    | none => (none, w)
    | some buffer_len =>
      if a.width ≤ 0 then
        (none, PyErr_SetString (PyExc.ValueError "width must be positive") w)
      else if a.height ≤ 0 then
        (none, PyErr_SetString (PyExc.ValueError "height must be positive") w)
      else
        match image_surface_create_for_data_stride a.format a.width (a.stride.getD (-1)) with
        | none => (none, PyErr_SetString (PyExc.CairoError "Unknown format") w)
        | some stride =>
          if c_int (a.height * stride) > (buffer_len : Int) then
            (none, PyErr_SetString (PyExc.TypeError "buffer is not long enough") w)
          else
            let create := Call.cairo_image_surface_create_for_data a.obj a.format a.width
              a.height stride
            let surface := E.cairo_create w.ext create
            let w := w.invoke E create
            PycairoSurface_FromSurface cfg E surface (some a.obj) w

/-! ## Class ImageSurface: the buffer interface -/

/-- The outcome of `image_surface_buffer_getreadbuf` and
`image_surface_buffer_getwritebuf`: the `int` returned, what was stored into `*ptr`
(`written = false`: nothing was stored; otherwise the address in `ptr`, `none` for
`NULL`), and the world. -/
structure BufferResult (σ : Type) where
  ret : Int
  written : Bool
  ptr : Option Nat
  world : World σ

/-- The function `image_surface_buffer_getreadbuf (o, segment, ptr)` (lines 511-528). -/
def image_surface_buffer_getreadbuf {σ : Type} (E : Env σ) (o : PycairoSurface)
    (segment : Int) (w : World σ) : BufferResult σ :=
  let surface := o.surface
  if segment ≠ 0 then
    { ret := -1, written := false, ptr := none,
      world := PyErr_SetString
        (PyExc.SystemError "accessing non-existent ImageSurface segment") w }
  else
    let height := E.cairo_int_getter w.ext IntGetter.cairo_image_surface_get_height surface
    let w := w.query (Call.cairo_int_getter IntGetter.cairo_image_surface_get_height surface)
    let stride := E.cairo_int_getter w.ext IntGetter.cairo_image_surface_get_stride surface
    let w := w.query (Call.cairo_int_getter IntGetter.cairo_image_surface_get_stride surface)
    let data := E.cairo_image_surface_get_data w.ext surface
    let w := w.query (Call.cairo_image_surface_get_data surface)
    { ret := c_int (height * stride), written := true, ptr := data, world := w }

/-- The function `image_surface_buffer_getwritebuf (o, segment, ptr)` (lines 530-546). -/
def image_surface_buffer_getwritebuf {σ : Type} (E : Env σ) (o : PycairoSurface)
    (segment : Int) (w : World σ) : BufferResult σ :=
  let surface := o.surface
  if segment ≠ 0 then
    { ret := -1, written := false, ptr := none,
      world := PyErr_SetString
        (PyExc.SystemError "accessing non-existent ImageSurface segment") w }
  else
    let height := E.cairo_int_getter w.ext IntGetter.cairo_image_surface_get_height surface
    let w := w.query (Call.cairo_int_getter IntGetter.cairo_image_surface_get_height surface)
    let stride := E.cairo_int_getter w.ext IntGetter.cairo_image_surface_get_stride surface
    let w := w.query (Call.cairo_int_getter IntGetter.cairo_image_surface_get_stride surface)
    let data := E.cairo_image_surface_get_data w.ext surface
    let w := w.query (Call.cairo_image_surface_get_data surface)
    { ret := c_int (height * stride), written := true, ptr := data, world := w }

/-- The function `image_surface_buffer_getsegcount (o, lenp)` (lines 548-559).  `lenp`
says whether the pointer is not `NULL`; the second component is what was stored into
`*lenp` (`none`: nothing was stored). -/
def image_surface_buffer_getsegcount {σ : Type} (E : Env σ) (o : PycairoSurface)
    (lenp : Bool) (w : World σ) : Int × Option Int × World σ :=
  if lenp then
    let surface := o.surface
    let height := E.cairo_int_getter w.ext IntGetter.cairo_image_surface_get_height surface
    let w := w.query (Call.cairo_int_getter IntGetter.cairo_image_surface_get_height surface)
    let stride := E.cairo_int_getter w.ext IntGetter.cairo_image_surface_get_stride surface
    let w := w.query (Call.cairo_int_getter IntGetter.cairo_image_surface_get_stride surface)
    (1, some (c_int (height * stride)), w)
  else (1, none, w)

/-! ## Classes PDFSurface, PSSurface and SVGSurface: the constructors -/

/-- The arguments of the PDF, PS and SVG constructors as `PyArg_ParseTuple` with format
`"Odd"` delivers them. -/
structure DocumentArgs where
  file : PyObj
  width_in_points : c_double
  height_in_points : c_double
  deriving DecidableEq, Repr

/-- The function `pdf_surface_new (type, args, kwds)` (lines 635-667).  `args` is
`none` when the arguments do not parse. -/
def pdf_surface_new {σ : Type} (cfg : Config) (E : Env σ) (args : Option DocumentArgs)
    (w : World σ) : Option PycairoSurface × World σ :=
  match args with
  | none => (none, w)
  | some a =>
    let is_string := E.PyObject_TypeCheck_PyBaseString_Type w.ext a.file
    let w := w.query (Call.PyObject_TypeCheck_PyBaseString_Type a.file)
    if is_string then
      let filename := E.PyString_AsString w.ext a.file
      let w := w.invoke E (Call.PyString_AsString a.file)
      let create := Call.cairo_pdf_surface_create filename a.width_in_points
        a.height_in_points
      let surface := E.cairo_create w.ext create
      let w := w.invoke E create
      PycairoSurface_FromSurface cfg E surface none w
    else
      let writer := E.PyObject_GetAttrString w.ext a.file "write"
      let w := w.invoke E (Call.PyObject_GetAttrString a.file "write")
      match writer with
      | none =>
        (none, PyErr_SetString (PyExc.TypeError
          "PDFSurface argument 1 must be a filename (str), file object, or an object that has a \"write\" method (like StringIO)") w)
      | some wr =>
        let callable := E.PyCallable_Check w.ext wr
        let w := w.query (Call.PyCallable_Check wr)
        if callable = false then
          let w := w.invoke E (Call.Py_DECREF wr)
          (none, PyErr_SetString (PyExc.TypeError
            "PDFSurface argument 1 must be a filename (str), file object, or an object that has a \"write\" method (like StringIO)") w)
        else
          let w := w.invoke E (Call.Py_DECREF wr)
          let create := Call.cairo_pdf_surface_create_for_stream Callback._write_func a.file
            a.width_in_points a.height_in_points
          let surface := E.cairo_create w.ext create
          let w := w.invoke E create
          PycairoSurface_FromSurface cfg E surface (some a.file) w

/-- The function `ps_surface_new (type, args, kwds)` (lines 738-771).  `args` is
`none` when the arguments do not parse. -/
def ps_surface_new {σ : Type} (cfg : Config) (E : Env σ) (args : Option DocumentArgs)
    (w : World σ) : Option PycairoSurface × World σ :=
  match args with
  | none => (none, w)
  | some a =>
    let is_string := E.PyObject_TypeCheck_PyBaseString_Type w.ext a.file
    let w := w.query (Call.PyObject_TypeCheck_PyBaseString_Type a.file)
    if is_string then
      let filename := E.PyString_AsString w.ext a.file
      let w := w.invoke E (Call.PyString_AsString a.file)
      let create := Call.cairo_ps_surface_create filename a.width_in_points
        a.height_in_points
      let surface := E.cairo_create w.ext create
      let w := w.invoke E create
      PycairoSurface_FromSurface cfg E surface none w
    else
      let writer := E.PyObject_GetAttrString w.ext a.file "write"
      let w := w.invoke E (Call.PyObject_GetAttrString a.file "write")
      match writer with
      | none =>
        (none, PyErr_SetString (PyExc.TypeError
          "PSSurface argument 1 must be a filename (str), file object, or an object that has a \"write\" method (like StringIO)") w)
      | some wr =>
        let callable := E.PyCallable_Check w.ext wr
        let w := w.query (Call.PyCallable_Check wr)
        if callable = false then
          let w := w.invoke E (Call.Py_DECREF wr)
          (none, PyErr_SetString (PyExc.TypeError
            "PSSurface argument 1 must be a filename (str), file object, or an object that has a \"write\" method (like StringIO)") w)
        else
          let w := w.invoke E (Call.Py_DECREF wr)
          let create := Call.cairo_ps_surface_create_for_stream Callback._write_func a.file
            a.width_in_points a.height_in_points
          let surface := E.cairo_create w.ext create
          let w := w.invoke E create
          PycairoSurface_FromSurface cfg E surface (some a.file) w

/-- The function `svg_surface_new (type, args, kwds)` (lines 872-904).  `args` is
`none` when the arguments do not parse. -/
def svg_surface_new {σ : Type} (cfg : Config) (E : Env σ) (args : Option DocumentArgs)
    (w : World σ) : Option PycairoSurface × World σ :=
  match args with
  | none => (none, w)
  | some a =>
    let is_string := E.PyObject_TypeCheck_PyBaseString_Type w.ext a.file
    let w := w.query (Call.PyObject_TypeCheck_PyBaseString_Type a.file)
    if is_string then
      let filename := E.PyString_AsString w.ext a.file
      let w := w.invoke E (Call.PyString_AsString a.file)
      let create := Call.cairo_svg_surface_create filename a.width_in_points
        a.height_in_points
      let surface := E.cairo_create w.ext create
      let w := w.invoke E create
      PycairoSurface_FromSurface cfg E surface none w
    else
      let writer := E.PyObject_GetAttrString w.ext a.file "write"
      let w := w.invoke E (Call.PyObject_GetAttrString a.file "write")
      match writer with
      | none =>
        (none, PyErr_SetString (PyExc.TypeError
          "SVGSurface argument 1 must be a filename (str), file object, or an object that has a \"write\" method (like StringIO)") w)
      | some wr =>
        let callable := E.PyCallable_Check w.ext wr
        let w := w.query (Call.PyCallable_Check wr)
        if callable = false then
          let w := w.invoke E (Call.Py_DECREF wr)
          (none, PyErr_SetString (PyExc.TypeError
            "SVGSurface argument 1 must be a filename (str), file object, or an object that has a \"write\" method (like StringIO)") w)
        else
          let w := w.invoke E (Call.Py_DECREF wr)
          let create := Call.cairo_svg_surface_create_for_stream Callback._write_func a.file
            a.width_in_points a.height_in_points
          let surface := E.cairo_create w.ext create
          let w := w.invoke E create
          PycairoSurface_FromSurface cfg E surface (some a.file) w

/-! ## Sequences of operations -/

/-- The caller-facing operations that change the native surface, with their parsed
arguments. -/
inductive MutatingOp where
  | finish
  | flush
  | mark_dirty (args : MarkDirtyArgs)
  | set_device_offset (x_offset y_offset : c_double)
  | set_fallback_resolution (x_ppi y_ppi : c_double)
  | pdf_set_size (width_in_points height_in_points : c_double)
  | ps_set_size (width_in_points height_in_points : c_double)
  | ps_dsc_begin_page_setup
  | ps_dsc_begin_setup
  | ps_dsc_comment (comment : String)
  deriving DecidableEq, Repr

/-- The C function behind each operation, called with arguments that parse. -/
def MutatingOp.run {σ : Type} (E : Env σ) (op : MutatingOp) (o : PycairoSurface)
    (w : World σ) : MethodResult σ :=
  match op with
  | MutatingOp.finish => surface_finish E o w
  | MutatingOp.flush => surface_flush E o w
  | MutatingOp.mark_dirty a => surface_mark_dirty E o (some a) w
  | MutatingOp.set_device_offset x y => surface_set_device_offset E o (some (x, y)) w
  | MutatingOp.set_fallback_resolution x y =>
    surface_set_fallback_resolution E o (some (x, y)) w
  | MutatingOp.pdf_set_size x y => pdf_surface_set_size E o (some (x, y)) w
  | MutatingOp.ps_set_size x y => ps_surface_set_size E o (some (x, y)) w
  | MutatingOp.ps_dsc_begin_page_setup => ps_surface_dsc_begin_page_setup E o w
  | MutatingOp.ps_dsc_begin_setup => ps_surface_dsc_begin_setup E o w
  | MutatingOp.ps_dsc_comment c => ps_surface_dsc_comment E o (some c) w

/-- The native call each operation makes on the surface `s`. -/
def MutatingOp.nativeCall (op : MutatingOp) (s : Option Ptr) : Call :=
  match op with
  | MutatingOp.finish => Call.cairo_surface_finish s
  | MutatingOp.flush => Call.cairo_surface_flush s
  | MutatingOp.mark_dirty a =>
    Call.cairo_surface_mark_dirty_rectangle s (a.x.getD 0) (a.y.getD 0)
      (a.width.getD (-1)) (a.height.getD (-1))
  | MutatingOp.set_device_offset x y => Call.cairo_surface_set_device_offset s x y
  | MutatingOp.set_fallback_resolution x y => Call.cairo_surface_set_fallback_resolution s x y
  | MutatingOp.pdf_set_size x y => Call.cairo_pdf_surface_set_size s x y
  | MutatingOp.ps_set_size x y => Call.cairo_ps_surface_set_size s x y
  | MutatingOp.ps_dsc_begin_page_setup => Call.cairo_ps_surface_dsc_begin_page_setup s
  | MutatingOp.ps_dsc_begin_setup => Call.cairo_ps_surface_dsc_begin_setup s
  | MutatingOp.ps_dsc_comment c => Call.cairo_ps_surface_dsc_comment s c

/-- The operations whose C function ends in `RETURN_NULL_IF_CAIRO_SURFACE_ERROR`. -/
def MutatingOp.checksStatus (op : MutatingOp) : Bool :=
  match op with
  | MutatingOp.finish | MutatingOp.flush | MutatingOp.mark_dirty _
  | MutatingOp.ps_dsc_begin_page_setup | MutatingOp.ps_dsc_begin_setup
  | MutatingOp.ps_dsc_comment _ => true
  | _ => false

/-- The release step of `surface_dealloc` applied `n` times to a handle. -/
def releaseTimes {σ : Type} (E : Env σ) (n : Nat) (h : PycairoSurface × World σ) :
    PycairoSurface × World σ :=
  match n with
  | 0 => h
  | n + 1 => releaseTimes E n (surface_dealloc_release E h.1 h.2)

/-- The method `finish ()` called `n` times on a handle. -/
def finishTimes {σ : Type} (E : Env σ) (n : Nat) (h : PycairoSurface × World σ) :
    PycairoSurface × World σ :=
  match n with
  | 0 => h
  | n + 1 =>
    let r := surface_finish E h.1 h.2
    finishTimes E n (r.self, r.world)

/-- The three kinds of document surface. -/
inductive DocumentKind where
  | PDF
  | PS
  | SVG
  deriving DecidableEq, Repr

/-- The constructor of each kind of document surface. -/
def DocumentKind.surface_new {σ : Type} (kind : DocumentKind) (cfg : Config) (E : Env σ)
    (args : Option DocumentArgs) (w : World σ) : Option PycairoSurface × World σ :=
  match kind with
  | DocumentKind.PDF => pdf_surface_new cfg E args w
  | DocumentKind.PS => ps_surface_new cfg E args w
  | DocumentKind.SVG => svg_surface_new cfg E args w

/-- The filename-based creation routine of cairo for each kind. -/
def DocumentKind.create (kind : DocumentKind) (filename : Option (List Byte))
    (width height : c_double) : Call :=
  match kind with
  | DocumentKind.PDF => Call.cairo_pdf_surface_create filename width height
  | DocumentKind.PS => Call.cairo_ps_surface_create filename width height
  | DocumentKind.SVG => Call.cairo_svg_surface_create filename width height

/-- The stream-based creation routine of cairo for each kind. -/
def DocumentKind.create_for_stream (kind : DocumentKind) (write_func : Callback)
    (closure : PyObj) (width height : c_double) : Call :=
  match kind with
  | DocumentKind.PDF => Call.cairo_pdf_surface_create_for_stream write_func closure width height
  | DocumentKind.PS => Call.cairo_ps_surface_create_for_stream write_func closure width height
  | DocumentKind.SVG => Call.cairo_svg_surface_create_for_stream write_func closure width height

/-- The `TypeError` message of each constructor. -/
def DocumentKind.message (kind : DocumentKind) : String :=
  match kind with
  | DocumentKind.PDF =>
    "PDFSurface argument 1 must be a filename (str), file object, or an object that has a \"write\" method (like StringIO)"
  | DocumentKind.PS =>
    "PSSurface argument 1 must be a filename (str), file object, or an object that has a \"write\" method (like StringIO)"
  | DocumentKind.SVG =>
    "SVGSurface argument 1 must be a filename (str), file object, or an object that has a \"write\" method (like StringIO)"

/-- Whether a call is a filename-based creation routine of a document surface. -/
def Call.isFilenameCreate (c : Call) : Bool :=
  match c with
  | Call.cairo_pdf_surface_create _ _ _ => true
  | Call.cairo_ps_surface_create _ _ _ => true
  | Call.cairo_svg_surface_create _ _ _ => true
  | _ => false

/-- Whether a call is a stream-based creation routine of a document surface. -/
def Call.isStreamCreate (c : Call) : Bool :=
  match c with
  | Call.cairo_pdf_surface_create_for_stream _ _ _ _ => true
  | Call.cairo_ps_surface_create_for_stream _ _ _ _ => true
  | Call.cairo_svg_surface_create_for_stream _ _ _ _ => true
  | _ => false

/-- Whether a call creates a cairo surface. -/
def Call.isCreate (c : Call) : Bool :=
  match c with
  | Call.cairo_surface_create_similar _ _ _ _ => true
  | Call.cairo_image_surface_create_for_data _ _ _ _ _ => true
  | c => c.isFilenameCreate || c.isStreamCreate

/-- Every instance method of the surface classes, with arguments that parse. -/
inductive SurfaceOp where
  | mutating (op : MutatingOp)
  | create_similar (content width height : Int)
  | get_content
  | get_device_offset
  | get_font_options
  | write_to_png (file : PyObj)
  | image_get_data
  | image_get_format
  | image_get_height
  | image_get_width
  | image_get_stride
  | xlib_get_depth
  | xlib_get_height
  | xlib_get_width
  deriving DecidableEq, Repr

/-- The C function behind each instance method. -/
def SurfaceOp.run {σ : Type} (cfg : Config) (E : Env σ) (op : SurfaceOp)
    (o : PycairoSurface) (w : World σ) : MethodResult σ :=
  match op with
  | SurfaceOp.mutating m => m.run E o w
  | SurfaceOp.create_similar content width height =>
    surface_create_similar cfg E o (some (content, width, height)) w
  | SurfaceOp.get_content => surface_get_content E o w
  | SurfaceOp.get_device_offset => surface_get_device_offset E o w
  | SurfaceOp.get_font_options => surface_get_font_options E o w
  | SurfaceOp.write_to_png file => surface_write_to_png E o file w
  | SurfaceOp.image_get_data => image_surface_get_data E o w
  | SurfaceOp.image_get_format => image_surface_get_format E o w
  | SurfaceOp.image_get_height => image_surface_get_height E o w
  | SurfaceOp.image_get_width => image_surface_get_width E o w
  | SurfaceOp.image_get_stride => image_surface_get_stride E o w
  | SurfaceOp.xlib_get_depth => xlib_surface_get_depth E o w
  | SurfaceOp.xlib_get_height => xlib_surface_get_height E o w
  | SurfaceOp.xlib_get_width => xlib_surface_get_width E o w

/-- A sequence of method calls on one wrapper, first call first. -/
def runOps {σ : Type} (cfg : Config) (E : Env σ) (ops : List SurfaceOp)
    (h : PycairoSurface × World σ) : PycairoSurface × World σ :=
  match ops with
  | [] => h
  | op :: rest =>
    let r := op.run cfg E h.1 h.2
    runOps cfg E rest (r.self, r.world)

/-! ## The registry of the specification, and concrete outside worlds -/

/-- The SurfaceRegistry of the specification: "a static mapping, fixed at
build/configuration time, from the native engine's discrete surface-type enumeration
to a constructor function per compiled-in backend (raster is always present; document
and platform-native backends are conditionally present based on build
configuration)". -/
def SurfaceRegistry (cfg : Config) : List (cairo_surface_type_t × PyTypeObject) :=
  [(CAIRO_SURFACE_TYPE_IMAGE, PyTypeObject.PycairoImageSurface_Type)]
  ++ (if cfg.CAIRO_HAS_PDF_SURFACE then
        [(CAIRO_SURFACE_TYPE_PDF, PyTypeObject.PycairoPDFSurface_Type)] else [])
  ++ (if cfg.CAIRO_HAS_PS_SURFACE then
        [(CAIRO_SURFACE_TYPE_PS, PyTypeObject.PycairoPSSurface_Type)] else [])
  ++ (if cfg.CAIRO_HAS_SVG_SURFACE then
        [(CAIRO_SURFACE_TYPE_SVG, PyTypeObject.PycairoSVGSurface_Type)] else [])
  ++ (if cfg.CAIRO_HAS_WIN32_SURFACE then
        [(CAIRO_SURFACE_TYPE_WIN32, PyTypeObject.PycairoWin32Surface_Type)] else [])
  ++ (if cfg.CAIRO_HAS_XLIB_SURFACE then
        [(CAIRO_SURFACE_TYPE_XLIB, PyTypeObject.PycairoXlibSurface_Type)] else [])
  ++ (if cfg.CAIRO_HAS_QUARTZ_SURFACE then
        [(CAIRO_SURFACE_TYPE_QUARTZ, PyTypeObject.PycairoQuartzSurface_Type)] else [])

/-- A build with every backend configured. -/
def allBackends : Config :=
  { CAIRO_HAS_PDF_SURFACE := true, CAIRO_HAS_PS_SURFACE := true,
    CAIRO_HAS_SVG_SURFACE := true, CAIRO_HAS_WIN32_SURFACE := true,
    CAIRO_HAS_XLIB_SURFACE := true, CAIRO_HAS_QUARTZ_SURFACE := true }

/-- A still outside world: every surface has status `status` and type tag `tag`,
allocation answers `alloc`, and a method call returns the object `result`, whose
string value is `str`.  Every object is a string exactly when `str` is given, every
attribute is the object `result` and callable, no object has a writable buffer, a
creating call returns surface 7, and the pixel data of every surface is at address
4096. -/
def stillEnv (status : cairo_status_t) (tag : cairo_surface_type_t) (alloc : Bool)
    (result : Option PyObj) (str : Option (List Byte)) : Env Unit :=
  { step := fun _ _ => (),
    cairo_surface_status := fun _ _ => status,
    cairo_surface_get_type := fun _ _ => tag,
    tp_alloc := fun _ _ => alloc,
    PyObject_CallMethod := fun _ _ _ _ => result,
    PyString_AsString := fun _ _ => str,
    memory_beyond := fun _ _ => List.replicate 16 0,
    string_memory := fun _ _ => str.getD [],
    PyObject_TypeCheck_PyBaseString_Type := fun _ _ => str.isSome,
    PyObject_GetAttrString := fun _ _ _ => result,
    PyCallable_Check := fun _ _ => true,
    PyObject_AsWriteBuffer := fun _ _ => none,
    cairo_create := fun _ _ => 7,
    cairo_call_status := fun _ _ => status,
    cairo_int_getter := fun _ _ _ => 0,
    cairo_surface_get_device_offset := fun _ _ => (0, 0),
    new_object := fun _ _ => result,
    cairo_image_surface_get_data := fun _ _ => some 4096 }

/-- The world before any call. -/
def World.start : World Unit := { ext := (), calls := [], exc := none }

/-- The world before any call, over a given outside state. -/
def World.init {σ : Type} (ext : σ) : World σ := { ext := ext, calls := [], exc := none }

/-- A still outside world in which every object has a writable buffer of `len` bytes. -/
def bufferEnv (len : Nat) : Env Unit :=
  { stillEnv CAIRO_STATUS_SUCCESS CAIRO_SURFACE_TYPE_IMAGE true none none with
    PyObject_AsWriteBuffer := fun _ _ => some len }

/-- A still outside world of file-like objects whose `write` attribute is the object
`writer` and is not callable. -/
def notCallableEnv (writer : PyObj) : Env Unit :=
  { stillEnv CAIRO_STATUS_SUCCESS CAIRO_SURFACE_TYPE_PDF true (some writer) none with
    PyCallable_Check := fun _ _ => false }

/-- The state of a byte stream behind file-like objects: the bytes written so far, the
read position, and the value of the string the last `read` returned. -/
structure Stream where
  written : List Byte
  position : Nat
  last : List Byte
  deriving DecidableEq, Repr

/-- An outside world of file-like objects over one accumulating byte stream: `write`
appends its argument and returns object 0, `read (n)` returns object 1, the string of
the next `n` bytes, which stays alive. -/
def streamEnv : Env Stream :=
  { step := fun s c =>
      match c with
      | Call.PyObject_CallMethod _ method (PyArg.bytes data) =>
        if method = "write" then { s with written := s.written ++ data } else s
      | Call.PyObject_CallMethod _ method (PyArg.int n) =>
        if method = "read" then
          { s with position := s.position + n.toNat,
                   last := (s.written.drop s.position).take n.toNat }
        else s
      | _ => s,
    cairo_surface_status := fun _ _ => CAIRO_STATUS_SUCCESS,
    cairo_surface_get_type := fun _ _ => CAIRO_SURFACE_TYPE_IMAGE,
    tp_alloc := fun _ _ => true,
    PyObject_CallMethod := fun _ _ method _ => if method = "read" then some 1 else some 0,
    PyString_AsString := fun s p => if p = 1 then some s.last else none,
    memory_beyond := fun _ _ => [],
    string_memory := fun s p => if p = 1 then s.last else [],
    PyObject_TypeCheck_PyBaseString_Type := fun _ _ => false,
    PyObject_GetAttrString := fun _ _ _ => some 2,
    PyCallable_Check := fun _ _ => true,
    PyObject_AsWriteBuffer := fun _ _ => none,
    cairo_create := fun _ _ => 7,
    cairo_call_status := fun _ _ => CAIRO_STATUS_SUCCESS,
    cairo_int_getter := fun _ _ _ => 0,
    cairo_surface_get_device_offset := fun _ _ => (0, 0),
    new_object := fun _ _ => none,
    cairo_image_surface_get_data := fun _ _ => none }

/-- The state of a cairo surface: whether it is finished, and its status. -/
structure Engine where
  finished : Bool
  status : cairo_status_t
  deriving DecidableEq, Repr

/-- An outside world with one cairo surface that behaves as cairo documents a finished
surface: `cairo_surface_finish` finishes it, and any later call that changes it puts it
into the status `CAIRO_STATUS_SURFACE_FINISHED`. -/
def finishedEnv : Env Engine :=
  { step := fun s c =>
      match c with
      | Call.cairo_surface_finish _ => { s with finished := true }
      | Call.cairo_surface_flush _
      | Call.cairo_surface_mark_dirty_rectangle _ _ _ _ _
      | Call.cairo_surface_set_device_offset _ _ _
      | Call.cairo_surface_set_fallback_resolution _ _ _
      | Call.cairo_pdf_surface_set_size _ _ _
      | Call.cairo_ps_surface_set_size _ _ _
      | Call.cairo_ps_surface_dsc_begin_page_setup _
      | Call.cairo_ps_surface_dsc_begin_setup _
      | Call.cairo_ps_surface_dsc_comment _ _ =>
        if s.finished then { s with status := CAIRO_STATUS_SURFACE_FINISHED } else s
      | _ => s,
    cairo_surface_status := fun s _ => s.status,
    cairo_surface_get_type := fun _ _ => CAIRO_SURFACE_TYPE_PDF,
    tp_alloc := fun _ _ => true,
    PyObject_CallMethod := fun _ _ _ _ => some 0,
    PyString_AsString := fun _ _ => none,
    memory_beyond := fun _ _ => [],
    string_memory := fun _ _ => [],
    PyObject_TypeCheck_PyBaseString_Type := fun _ _ => false,
    PyObject_GetAttrString := fun _ _ _ => some 2,
    PyCallable_Check := fun _ _ => true,
    PyObject_AsWriteBuffer := fun _ _ => none,
    cairo_create := fun _ _ => 7,
    cairo_call_status := fun s _ => s.status,
    cairo_int_getter := fun _ _ _ => 0,
    cairo_surface_get_device_offset := fun _ _ => (0, 0),
    new_object := fun _ _ => none,
    cairo_image_surface_get_data := fun _ _ => none }

/-- An outside world in which `read` returns object 1, a fresh string holding the bytes
1, 0, 2 with no other reference: the `Py_DECREF` of object 1 frees it, and the allocator
fills freed memory with the byte 0xDB, as the debug allocator of Python does.  The state
says whether the string has been freed. -/
def freedEnv : Env Bool :=
  { step := fun freed c =>
      match c with
      | Call.Py_DECREF o => if o = 1 then true else freed
      | _ => freed,
    cairo_surface_status := fun _ _ => CAIRO_STATUS_SUCCESS,
    cairo_surface_get_type := fun _ _ => CAIRO_SURFACE_TYPE_IMAGE,
    tp_alloc := fun _ _ => true,
    PyObject_CallMethod := fun _ _ _ _ => some 1,
    PyString_AsString := fun freed p => if p = 1 ∧ freed = false then some [1, 0, 2] else none,
    memory_beyond := fun _ _ => [],
    string_memory := fun freed p =>
      if p = 1 then (if freed then [0xDB, 0xDB, 0xDB] else [1, 0, 2]) else [],
    PyObject_TypeCheck_PyBaseString_Type := fun _ _ => false,
    PyObject_GetAttrString := fun _ _ _ => some 2,
    PyCallable_Check := fun _ _ => true,
    PyObject_AsWriteBuffer := fun _ _ => none,
    cairo_create := fun _ _ => 7,
    cairo_call_status := fun _ _ => CAIRO_STATUS_SUCCESS,
    cairo_int_getter := fun _ _ _ => 0,
    cairo_surface_get_device_offset := fun _ _ => (0, 0),
    new_object := fun _ _ => none,
    cairo_image_surface_get_data := fun _ _ => none }

/-! ## The calls of the conditional steps -/

/-- The call that drops the reference held by a pointer: none for `NULL`. -/
def decrefCalls (base : Option PyObj) : List Call :=
  match base with
  | some x => [Call.Py_DECREF x]
  | none => []

/-- The calls of the destroy step of `surface_dealloc`. -/
def destroyCalls (surface : Option Ptr) : List Call :=
  match surface with
  | some s => [Call.cairo_surface_destroy s]
  | none => []

/-- The state of the outside world when `surface_finish` reads the status. -/
def finishExt {σ : Type} (E : Env σ) (o : PycairoSurface) (w : World σ) : σ :=
  match o.base with
  | some x => E.step (E.step w.ext (Call.cairo_surface_finish o.surface)) (Call.Py_DECREF x)
  | none => E.step w.ext (Call.cairo_surface_finish o.surface)

/-! ## The calls added by a function, and rules of the specification -/

/-- The calls a function added to the log: those of the world `after` that were not yet
in the world `before`. -/
def callsSince {σ : Type} (before after : World σ) : List Call :=
  after.calls.drop before.calls.length

/-- The stride rule of the specification: when the stride is unspecified it is
"derived from pixel format and width using fixed per-format byte-width rules (4
bytes/pixel for 32-bit formats, 2 for 16-bit, 1 for 8-bit alpha-only, `(width+1)/8` for
1-bit-per-pixel"; a stride that is supplied and not negative is taken as it is.  The
rule says nothing (`none`) for another format or a negative stride. -/
def strideRule (format : cairo_format_t) (width : Int) (stride : Option Int) : Option Int :=
  match stride with
  | some s => if 0 ≤ s then some s else none
  | none =>
    if format = CAIRO_FORMAT_ARGB32 ∨ format = CAIRO_FORMAT_RGB24 then some (width * 4)
    else if format = CAIRO_FORMAT_RGB16_565 then some (width * 2)
    else if format = CAIRO_FORMAT_A8 then some width
    else if format = CAIRO_FORMAT_A1 then some ((width + 1) / 8)
    else none

/-- The `TypeError` message of `surface_write_to_png`. -/
def write_to_png_message : String :=
  "Surface.write_to_png takes one argument which must be a filename (str), file object, or a file-like object which has a \"write\" method (like StringIO)"

/-! # Theorems -/

/-! ## Shared lemmas -/

theorem query_calls {σ : Type} (w : World σ) (c : Call) :
    (w.query c).calls = w.calls ++ [c] := rfl

theorem invoke_calls {σ : Type} (E : Env σ) (w : World σ) (c : Call) :
    (w.invoke E c).calls = w.calls ++ [c] := rfl

theorem registry_lookup (cfg : Config) (tag : cairo_surface_type_t) (ty : PyTypeObject)
    (h : (tag, ty) ∈ SurfaceRegistry cfg) :
    PycairoSurface_FromSurface_type cfg tag = some ty := by
  cases cfg with
  | mk a b c d e f =>
    cases a <;> cases b <;> cases c <;> cases d <;> cases e <;> cases f <;>
      simp [SurfaceRegistry] at h <;>
      (rcases h with h | h | h | h | h | h | h) <;>
      simp_all [PycairoSurface_FromSurface_type]

theorem registry_miss (cfg : Config) (tag : cairo_surface_type_t)
    (h : tag ∉ (SurfaceRegistry cfg).map Prod.fst) :
    PycairoSurface_FromSurface_type cfg tag = none := by
  cases cfg with
  | mk a b c d e f =>
    cases a <;> cases b <;> cases c <;> cases d <;> cases e <;> cases f <;>
      simp [SurfaceRegistry] at h <;>
      simp [PycairoSurface_FromSurface_type, h]

/-- The three ways `PycairoSurface_FromSurface` ends on a surface without error
status, by the outcome of the switch and of the allocation. -/
theorem fromSurface_ok {σ : Type} (cfg : Config) (E : Env σ) (surface : Ptr)
    (base : Option PyObj) (w : World σ)
    (hstatus : E.cairo_surface_status w.ext (some surface) = CAIRO_STATUS_SUCCESS) :
    PycairoSurface_FromSurface cfg E surface base w =
      match PycairoSurface_FromSurface_type cfg (E.cairo_surface_get_type w.ext surface) with
      | none =>
        (none, { w with
          calls := w.calls ++ [Call.cairo_surface_status (some surface),
            Call.cairo_surface_get_type surface],
          exc := some (PyExc.CairoError "Unsupported Surface type") })
      | some type =>
        if E.tp_alloc w.ext type = false then
          (none, { w with
            ext := E.step (E.step w.ext (Call.tp_alloc type))
              (Call.cairo_surface_destroy surface),
            calls := w.calls ++ [Call.cairo_surface_status (some surface),
              Call.cairo_surface_get_type surface, Call.tp_alloc type,
              Call.cairo_surface_destroy surface] })
        else
          (some { ob_type := type, surface := some surface, base := base },
            Py_XINCREF E base { w with
              ext := E.step w.ext (Call.tp_alloc type),
              calls := w.calls ++ [Call.cairo_surface_status (some surface),
                Call.cairo_surface_get_type surface, Call.tp_alloc type] }) := by
  simp only [PycairoSurface_FromSurface, Pycairo_Check_Status, hstatus, World.query,
    World.invoke, PyErr_SetString, if_true]
  cases PycairoSurface_FromSurface_type cfg (E.cairo_surface_get_type w.ext surface) with
  | none => simp
  | some type => cases E.tp_alloc w.ext type <;> simp

/-- The way `PycairoSurface_FromSurface` ends on a surface with an error status. -/
theorem fromSurface_err {σ : Type} (cfg : Config) (E : Env σ) (surface : Ptr)
    (base : Option PyObj) (w : World σ)
    (hstatus : E.cairo_surface_status w.ext (some surface) ≠ CAIRO_STATUS_SUCCESS) :
    PycairoSurface_FromSurface cfg E surface base w =
      (none, { ext := E.step w.ext (Call.cairo_surface_destroy surface),
               calls := w.calls ++ [Call.cairo_surface_status (some surface),
                 Call.cairo_surface_destroy surface],
               exc := some (PyExc.NativeEngineError
                 (E.cairo_surface_status w.ext (some surface))) }) := by
  simp [PycairoSurface_FromSurface, Pycairo_Check_Status, hstatus, World.query,
    World.invoke, PyErr_SetString]

theorem destroys_append (s : Ptr) (xs ys : List Call) :
    destroys s (xs ++ ys) = destroys s xs + destroys s ys := by
  simp [destroys, List.count_append]

theorem increfs_append (x : PyObj) (xs ys : List Call) :
    increfs x (xs ++ ys) = increfs x xs + increfs x ys := by
  simp [increfs, List.count_append]

theorem decrefs_append (x : PyObj) (xs ys : List Call) :
    decrefs x (xs ++ ys) = decrefs x xs + decrefs x ys := by
  simp [decrefs, List.count_append]

/-! ## PycairoSurface_FromSurface -/

/-- C1: `PycairoSurface_FromSurface` dispatches on the native type tag.  For every
surface whose status is success: when the type tag is registered for a Python type in
the registry of the build and the allocation succeeds, the wrapper returned has exactly
that type; when the type tag is not registered, no wrapper is returned and the error is
`CairoError "Unsupported Surface type"`.  With every backend configured the registry is
IMAGE, PDF, PS, SVG, WIN32, XLIB, QUARTZ, each with its own surface type. -/
theorem C1_FromSurface_dispatches_on_type_tag {σ : Type} (cfg : Config) (E : Env σ)
    (surface : Ptr) (base : Option PyObj) (w : World σ)
    (hstatus : E.cairo_surface_status w.ext (some surface) = CAIRO_STATUS_SUCCESS) :
    (∀ ty, (E.cairo_surface_get_type w.ext surface, ty) ∈ SurfaceRegistry cfg →
      E.tp_alloc w.ext ty = true →
      ∃ o, (PycairoSurface_FromSurface cfg E surface base w).1 = some o ∧ o.ob_type = ty) ∧
    (E.cairo_surface_get_type w.ext surface ∉ (SurfaceRegistry cfg).map Prod.fst →
      (PycairoSurface_FromSurface cfg E surface base w).1 = none ∧
      (PycairoSurface_FromSurface cfg E surface base w).2.exc =
        some (PyExc.CairoError "Unsupported Surface type")) ∧
    SurfaceRegistry allBackends =
      [(CAIRO_SURFACE_TYPE_IMAGE, PyTypeObject.PycairoImageSurface_Type),
       (CAIRO_SURFACE_TYPE_PDF, PyTypeObject.PycairoPDFSurface_Type),
       (CAIRO_SURFACE_TYPE_PS, PyTypeObject.PycairoPSSurface_Type),
       (CAIRO_SURFACE_TYPE_SVG, PyTypeObject.PycairoSVGSurface_Type),
       (CAIRO_SURFACE_TYPE_WIN32, PyTypeObject.PycairoWin32Surface_Type),
       (CAIRO_SURFACE_TYPE_XLIB, PyTypeObject.PycairoXlibSurface_Type),
       (CAIRO_SURFACE_TYPE_QUARTZ, PyTypeObject.PycairoQuartzSurface_Type)] := by
  refine ⟨?_, ?_, rfl⟩
  · intro ty hmem halloc
    rw [fromSurface_ok cfg E surface base w hstatus, registry_lookup cfg _ ty hmem]
    simp [halloc]
  · intro hmiss
    rw [fromSurface_ok cfg E surface base w hstatus, registry_miss cfg _ hmiss]
    exact ⟨rfl, rfl⟩

/-- C1, at a PDF surface in a build with every backend: the wrapper is a PDFSurface. -/
theorem C1_FromSurface_dispatches_on_type_tag_witness :
    (stillEnv CAIRO_STATUS_SUCCESS CAIRO_SURFACE_TYPE_PDF true none none).cairo_surface_status
        World.start.ext (some 7) = CAIRO_STATUS_SUCCESS ∧
    ∃ o, (PycairoSurface_FromSurface allBackends
        (stillEnv CAIRO_STATUS_SUCCESS CAIRO_SURFACE_TYPE_PDF true none none)
        7 (some 3) World.start).1 = some o ∧
      o.ob_type = PyTypeObject.PycairoPDFSurface_Type :=
  ⟨rfl, (C1_FromSurface_dispatches_on_type_tag allBackends
      (stillEnv CAIRO_STATUS_SUCCESS CAIRO_SURFACE_TYPE_PDF true none none)
      7 (some 3) World.start rfl).1 PyTypeObject.PycairoPDFSurface_Type (by decide) rfl⟩

/-- C2: on a surface whose status is an error, `PycairoSurface_FromSurface` reads the
status first, then destroys the surface, and nothing else: it returns no wrapper, the
error raised is the one for that status, the surface is destroyed exactly once, the type
tag is never read, and no reference count is touched. -/
theorem C2_FromSurface_error_status {σ : Type} (cfg : Config) (E : Env σ)
    (surface : Ptr) (base : Option PyObj) (w : World σ)
    (herr : E.cairo_surface_status w.ext (some surface) ≠ CAIRO_STATUS_SUCCESS) :
    (PycairoSurface_FromSurface cfg E surface base w).1 = none ∧
    (PycairoSurface_FromSurface cfg E surface base w).2.calls =
      w.calls ++ [Call.cairo_surface_status (some surface),
        Call.cairo_surface_destroy surface] ∧
    (PycairoSurface_FromSurface cfg E surface base w).2.exc =
      some (PyExc.NativeEngineError (E.cairo_surface_status w.ext (some surface))) ∧
    destroys surface (PycairoSurface_FromSurface cfg E surface base w).2.calls =
      destroys surface w.calls + 1 ∧
    readsTypeTag ((PycairoSurface_FromSurface cfg E surface base w).2.calls.drop
      w.calls.length) = false ∧
    ∀ x, increfs x (PycairoSurface_FromSurface cfg E surface base w).2.calls =
        increfs x w.calls ∧
      decrefs x (PycairoSurface_FromSurface cfg E surface base w).2.calls =
        decrefs x w.calls := by
  rw [fromSurface_err cfg E surface base w herr]
  refine ⟨rfl, rfl, rfl, ?_, ?_, ?_⟩
  · simp [destroys_append, destroys]
  · simp [readsTypeTag]
  · intro x
    simp [increfs_append, decrefs_append, increfs, decrefs]

/-- C2, at a surface in the out-of-memory status, wrapped for a keep-alive object. -/
theorem C2_FromSurface_error_status_witness :
    (PycairoSurface_FromSurface allBackends
      (stillEnv CAIRO_STATUS_NO_MEMORY CAIRO_SURFACE_TYPE_IMAGE true none none)
      7 (some 3) World.start).2.calls =
      [Call.cairo_surface_status (some 7), Call.cairo_surface_destroy 7] :=
  (C2_FromSurface_error_status allBackends
    (stillEnv CAIRO_STATUS_NO_MEMORY CAIRO_SURFACE_TYPE_IMAGE true none none)
    7 (some 3) World.start (by decide)).2.1

/-- C3, the code at a surface of a type the build does not wrap: with status success and
the type tag XCB, `PycairoSurface_FromSurface` returns no wrapper, raises
`CairoError "Unsupported Surface type"`, and has not destroyed the surface: its only
calls are the reads of the status and of the type tag.  The failure next to it, a failed
allocation for an IMAGE surface, does destroy the surface once. -/
theorem C3_unsupported_type_tag_not_destroyed :
    (PycairoSurface_FromSurface allBackends
      (stillEnv CAIRO_STATUS_SUCCESS CAIRO_SURFACE_TYPE_XCB true none none)
      7 none World.start).1 = none ∧
    (PycairoSurface_FromSurface allBackends
      (stillEnv CAIRO_STATUS_SUCCESS CAIRO_SURFACE_TYPE_XCB true none none)
      7 none World.start).2.exc = some (PyExc.CairoError "Unsupported Surface type") ∧
    (PycairoSurface_FromSurface allBackends
      (stillEnv CAIRO_STATUS_SUCCESS CAIRO_SURFACE_TYPE_XCB true none none)
      7 none World.start).2.calls =
      [Call.cairo_surface_status (some 7), Call.cairo_surface_get_type 7] ∧
    destroys 7 (PycairoSurface_FromSurface allBackends
      (stillEnv CAIRO_STATUS_SUCCESS CAIRO_SURFACE_TYPE_XCB true none none)
      7 none World.start).2.calls = 0 ∧
    (PycairoSurface_FromSurface allBackends
      (stillEnv CAIRO_STATUS_SUCCESS CAIRO_SURFACE_TYPE_IMAGE false none none)
      7 none World.start).1 = none ∧
    destroys 7 (PycairoSurface_FromSurface allBackends
      (stillEnv CAIRO_STATUS_SUCCESS CAIRO_SURFACE_TYPE_IMAGE false none none)
      7 none World.start).2.calls = 1 := by
  refine ⟨rfl, rfl, rfl, ?_, rfl, ?_⟩ <;> decide

/-- C4: ownership wiring of `PycairoSurface_FromSurface (surface, base)`.  When a
wrapper is returned, its surface field is the surface passed in, which was not
destroyed, its base field is `base`, the reference count of `base` went up by exactly
one when `base` is not `NULL`, and no other reference count changed (none at all when
`base` is `NULL`).  When no wrapper is returned, no reference count changed. -/
theorem C4_FromSurface_ownership {σ : Type} (cfg : Config) (E : Env σ)
    (surface : Ptr) (base : Option PyObj) (w : World σ) :
    match PycairoSurface_FromSurface cfg E surface base w with
    | (some o, w1) =>
      o.surface = some surface ∧ o.base = base ∧
      destroys surface w1.calls = destroys surface w.calls ∧
      (∀ x, increfs x w1.calls = increfs x w.calls + (if base = some x then 1 else 0)) ∧
      (∀ x, decrefs x w1.calls = decrefs x w.calls) ∧
      (∀ init x, refcount init x w1.calls =
        refcount init x w.calls + (if base = some x then 1 else 0))
    | (none, w1) =>
      (∀ x, increfs x w1.calls = increfs x w.calls) ∧
      (∀ x, decrefs x w1.calls = decrefs x w.calls) ∧
      (∀ init x, refcount init x w1.calls = refcount init x w.calls) := by
  by_cases hstatus : E.cairo_surface_status w.ext (some surface) = CAIRO_STATUS_SUCCESS
  · rw [fromSurface_ok cfg E surface base w hstatus]
    cases PycairoSurface_FromSurface_type cfg (E.cairo_surface_get_type w.ext surface) with
    | none =>
      simp [refcount, increfs_append, decrefs_append, increfs, decrefs]
    | some type =>
      by_cases halloc : E.tp_alloc w.ext type = false
      · simp [halloc, refcount, increfs_append, decrefs_append, increfs, decrefs]
      · dsimp only
        rw [if_neg halloc]
        cases base with
        | none =>
          simp [Py_XINCREF, refcount, destroys_append, increfs_append, decrefs_append,
            destroys, increfs, decrefs]
        | some b =>
          have key : ∀ x : PyObj,
              List.count (Call.Py_INCREF x) [Call.Py_INCREF b] = if b = x then 1 else 0 := by
            intro x
            by_cases hx : b = x
            · subst hx; simp
            · have hne : Call.Py_INCREF b ≠ Call.Py_INCREF x := by
                intro h; exact hx (Call.Py_INCREF.inj h)
              simp [List.count_singleton, hx, hne]
          simp only [Py_XINCREF, World.invoke]
          refine ⟨trivial, trivial, ?_, ?_, ?_, ?_⟩
          · simp [destroys_append, destroys]
          · intro x
            simp only [increfs_append, Option.some.injEq]
            simp only [increfs, key]
            simp
          · intro x
            simp [decrefs_append, decrefs]
          · intro init x
            simp only [refcount, increfs_append, decrefs_append, Option.some.injEq]
            simp only [increfs, decrefs, key]
            split
            · simp; omega
            · simp
  · rw [fromSurface_err cfg E surface base w hstatus]
    simp [refcount, increfs_append, decrefs_append, increfs, decrefs]

/-! ## Release and finish -/

theorem release_self {σ : Type} (E : Env σ) (o : PycairoSurface) (w : World σ) :
    (surface_dealloc_release E o w).1 = { o with surface := none, base := none } := by
  obtain ⟨ty, s, b⟩ := o
  cases s <;> cases b <;> rfl

theorem release_calls {σ : Type} (E : Env σ) (o : PycairoSurface) (w : World σ) :
    (surface_dealloc_release E o w).2.calls =
      w.calls ++ destroyCalls o.surface ++ decrefCalls o.base := by
  obtain ⟨ty, s, b⟩ := o
  cases s <;> cases b <;>
    simp [surface_dealloc_release, Py_CLEAR_base, World.invoke, destroyCalls, decrefCalls]

theorem release_released {σ : Type} (E : Env σ) (o : PycairoSurface) (w : World σ)
    (hs : o.surface = none) (hb : o.base = none) :
    surface_dealloc_release E o w = (o, w) := by
  obtain ⟨ty, s, b⟩ := o
  simp only at hs hb
  subst hs hb
  rfl

theorem releaseTimes_released {σ : Type} (E : Env σ) (n : Nat) (o : PycairoSurface)
    (w : World σ) (hs : o.surface = none) (hb : o.base = none) :
    releaseTimes E n (o, w) = (o, w) := by
  induction n with
  | zero => rfl
  | succ n ih => rw [releaseTimes, release_released E o w hs hb]; exact ih

theorem decrefs_decrefCalls (x : PyObj) (base : Option PyObj) :
    decrefs x (decrefCalls base) = if base = some x then 1 else 0 := by
  cases base with
  | none => simp [decrefCalls, decrefs]
  | some b =>
    by_cases hx : b = x
    · subst hx; simp [decrefCalls, decrefs]
    · have hne : Call.Py_DECREF b ≠ Call.Py_DECREF x := by
        intro h; exact hx (Call.Py_DECREF.inj h)
      simp [decrefCalls, decrefs, List.count_singleton, hx, hne]

theorem destroys_destroyCalls (s : Ptr) (surface : Option Ptr) :
    destroys s (destroyCalls surface) = if surface = some s then 1 else 0 := by
  cases surface with
  | none => simp [destroyCalls, destroys]
  | some p =>
    by_cases hx : p = s
    · subst hx; simp [destroyCalls, destroys]
    · have hne : Call.cairo_surface_destroy p ≠ Call.cairo_surface_destroy s := by
        intro h; exact hx (Call.cairo_surface_destroy.inj h)
      simp [destroyCalls, destroys, List.count_singleton, hx, hne]

/-- C5: the release step of `surface_dealloc` is idempotent.  For every handle and every
`n ≥ 1`, applying it `n` times gives the same handle and the same world, log of calls
included, as applying it once: both fields are `NULL` afterwards, each surface is
destroyed once if the handle held it and not at all otherwise, and each object loses one
reference if it was the keep-alive object and none otherwise. -/
theorem C5_release_idempotent {σ : Type} (E : Env σ) (o : PycairoSurface) (w : World σ)
    (n : Nat) (hn : 1 ≤ n) :
    releaseTimes E n (o, w) = surface_dealloc_release E o w ∧
    (releaseTimes E n (o, w)).1.surface = none ∧
    (releaseTimes E n (o, w)).1.base = none ∧
    (∀ s, destroys s (releaseTimes E n (o, w)).2.calls =
      destroys s w.calls + (if o.surface = some s then 1 else 0)) ∧
    (∀ x, decrefs x (releaseTimes E n (o, w)).2.calls =
      decrefs x w.calls + (if o.base = some x then 1 else 0)) := by
  have once : releaseTimes E n (o, w) = surface_dealloc_release E o w := by
    obtain ⟨m, rfl⟩ : ∃ m, n = m + 1 := ⟨n - 1, by omega⟩
    exact releaseTimes_released E m (surface_dealloc_release E o w).1
      (surface_dealloc_release E o w).2 (by rw [release_self]) (by rw [release_self])
  rw [once]
  refine ⟨rfl, by rw [release_self], by rw [release_self], ?_, ?_⟩
  · intro s
    rw [release_calls, destroys_append, destroys_append, destroys_destroyCalls]
    have : destroys s (decrefCalls o.base) = 0 := by
      cases o.base <;> simp [decrefCalls, destroys]
    omega
  · intro x
    rw [release_calls, decrefs_append, decrefs_append, decrefs_decrefCalls]
    have : decrefs x (destroyCalls o.surface) = 0 := by
      cases o.surface <;> simp [destroyCalls, decrefs]
    omega

/-- C5, at a handle that holds surface 7 and keep-alive object 3, released three times. -/
theorem C5_release_idempotent_witness :
    (1 ≤ 3) ∧
    releaseTimes (stillEnv CAIRO_STATUS_SUCCESS CAIRO_SURFACE_TYPE_IMAGE true none none) 3
      ({ ob_type := PyTypeObject.PycairoImageSurface_Type, surface := some 7, base := some 3 },
        World.start) =
    surface_dealloc_release
      (stillEnv CAIRO_STATUS_SUCCESS CAIRO_SURFACE_TYPE_IMAGE true none none)
      { ob_type := PyTypeObject.PycairoImageSurface_Type, surface := some 7, base := some 3 }
      World.start :=
  ⟨by decide, (C5_release_idempotent
    (stillEnv CAIRO_STATUS_SUCCESS CAIRO_SURFACE_TYPE_IMAGE true none none)
    { ob_type := PyTypeObject.PycairoImageSurface_Type, surface := some 7, base := some 3 }
    World.start 3 (by decide)).1⟩

theorem finish_self {σ : Type} (E : Env σ) (o : PycairoSurface) (w : World σ) :
    (surface_finish E o w).self = { o with base := none } := by
  obtain ⟨ty, s, b⟩ := o
  cases b <;>
    simp only [surface_finish, Py_CLEAR_base, RETURN_NULL_IF_CAIRO_SURFACE_ERROR] <;>
    split <;> simp_all

theorem finish_calls {σ : Type} (E : Env σ) (o : PycairoSurface) (w : World σ) :
    (surface_finish E o w).world.calls =
      w.calls ++ [Call.cairo_surface_finish o.surface] ++ decrefCalls o.base ++
        [Call.cairo_surface_status o.surface] := by
  obtain ⟨ty, s, b⟩ := o
  cases b with
  | none =>
    by_cases h : E.cairo_surface_status (E.step w.ext (Call.cairo_surface_finish s)) s
        = CAIRO_STATUS_SUCCESS <;>
      simp [surface_finish, Py_CLEAR_base, RETURN_NULL_IF_CAIRO_SURFACE_ERROR,
        Pycairo_Check_Status, PyErr_SetString, World.query, World.invoke, decrefCalls, h]
  | some x =>
    by_cases h : E.cairo_surface_status
        (E.step (E.step w.ext (Call.cairo_surface_finish s)) (Call.Py_DECREF x)) s
        = CAIRO_STATUS_SUCCESS <;>
      simp [surface_finish, Py_CLEAR_base, RETURN_NULL_IF_CAIRO_SURFACE_ERROR,
        Pycairo_Check_Status, PyErr_SetString, World.query, World.invoke, decrefCalls, h]

theorem finish_ret {σ : Type} (E : Env σ) (o : PycairoSurface) (w : World σ) :
    (surface_finish E o w).ret =
      if E.cairo_surface_status (finishExt E o w) o.surface ≠ CAIRO_STATUS_SUCCESS then none
      else some PyValue.None := by
  obtain ⟨ty, s, b⟩ := o
  cases b <;>
    simp only [surface_finish, Py_CLEAR_base, RETURN_NULL_IF_CAIRO_SURFACE_ERROR,
      Pycairo_Check_Status, PyErr_SetString, World.query, World.invoke, finishExt] <;>
    split <;> split at * <;> simp_all

theorem finish_ext {σ : Type} (E : Env σ) (o : PycairoSurface) (w : World σ) :
    (surface_finish E o w).world.ext = finishExt E o w := by
  obtain ⟨ty, s, b⟩ := o
  cases b with
  | none =>
    by_cases h : E.cairo_surface_status (E.step w.ext (Call.cairo_surface_finish s)) s
        = CAIRO_STATUS_SUCCESS <;>
      simp [surface_finish, Py_CLEAR_base, RETURN_NULL_IF_CAIRO_SURFACE_ERROR,
        Pycairo_Check_Status, PyErr_SetString, World.query, World.invoke, finishExt, h]
  | some x =>
    by_cases h : E.cairo_surface_status
        (E.step (E.step w.ext (Call.cairo_surface_finish s)) (Call.Py_DECREF x)) s
        = CAIRO_STATUS_SUCCESS <;>
      simp [surface_finish, Py_CLEAR_base, RETURN_NULL_IF_CAIRO_SURFACE_ERROR,
        Pycairo_Check_Status, PyErr_SetString, World.query, World.invoke, finishExt, h]

theorem finishTimes_base {σ : Type} (E : Env σ) (n : Nat) (o : PycairoSurface)
    (w : World σ) (x : PyObj) :
    decrefs x (finishTimes E n (o, w)).2.calls + decrefs x (decrefCalls (finishTimes E n (o, w)).1.base)
      = decrefs x w.calls + decrefs x (decrefCalls o.base) := by
  induction n generalizing o w with
  | zero => rfl
  | succ n ih =>
    rw [finishTimes]
    simp only
    rw [ih, finish_calls, finish_self]
    simp [decrefs_append, decrefCalls, decrefs]

theorem finishTimes_surface {σ : Type} (E : Env σ) (n : Nat) (o : PycairoSurface)
    (w : World σ) : (finishTimes E n (o, w)).1.surface = o.surface := by
  induction n generalizing o w with
  | zero => rfl
  | succ n ih =>
    rw [finishTimes]
    simp only
    rw [ih, finish_self]

/-- C6: `surface_finish` calls the native finish, then drops the keep-alive reference,
then reads the status.  After `finish ()` the keep-alive field is `NULL` whether the call
succeeds or fails; and over any number `n` of `finish ()` calls followed by the release
step of `surface_dealloc`, an object loses exactly one reference if it was the
keep-alive object of the handle and none otherwise. -/
theorem C6_finish_releases_keep_alive_once {σ : Type} (E : Env σ) (o : PycairoSurface)
    (w : World σ) (n : Nat) :
    (surface_finish E o w).world.calls =
      w.calls ++ [Call.cairo_surface_finish o.surface] ++ decrefCalls o.base ++
        [Call.cairo_surface_status o.surface] ∧
    (surface_finish E o w).self.base = none ∧
    (surface_finish E o w).self.surface = o.surface ∧
    ((surface_finish E o w).ret = none ↔
      E.cairo_surface_status (surface_finish E o w).world.ext o.surface
        ≠ CAIRO_STATUS_SUCCESS) ∧
    ((surface_finish E o w).ret = some PyValue.None ↔
      E.cairo_surface_status (surface_finish E o w).world.ext o.surface
        = CAIRO_STATUS_SUCCESS) ∧
    ∀ x, decrefs x (surface_dealloc_release E (finishTimes E n (o, w)).1
        (finishTimes E n (o, w)).2).2.calls =
      decrefs x w.calls + (if o.base = some x then 1 else 0) := by
  refine ⟨finish_calls E o w, by rw [finish_self], by rw [finish_self], ?_, ?_, ?_⟩
  · rw [finish_ret, finish_ext]
    split <;> simp_all
  · rw [finish_ret, finish_ext]
    split <;> simp_all
  · intro x
    rw [release_calls, decrefs_append, decrefs_append]
    have h1 := finishTimes_base E n o w x
    have h2 : decrefs x (destroyCalls (finishTimes E n (o, w)).1.surface) = 0 := by
      cases (finishTimes E n (o, w)).1.surface <;> simp [destroyCalls, decrefs]
    rw [decrefs_decrefCalls] at h1
    rw [decrefs_decrefCalls] at h1
    rw [decrefs_decrefCalls]
    omega

/-- C7: `surface_flush` calls the native flush once and then reads the status; it
returns `NULL` exactly when the status after the flush is an error and `None`
otherwise, and it leaves the surface pointer and the keep-alive reference of the
wrapper as they were. -/
theorem C7_flush_checks_status {σ : Type} (E : Env σ) (o : PycairoSurface) (w : World σ) :
    (surface_flush E o w).world.calls =
      w.calls ++ [Call.cairo_surface_flush o.surface, Call.cairo_surface_status o.surface] ∧
    ((surface_flush E o w).ret = none ↔
      E.cairo_surface_status (E.step w.ext (Call.cairo_surface_flush o.surface)) o.surface
        ≠ CAIRO_STATUS_SUCCESS) ∧
    ((surface_flush E o w).ret = some PyValue.None ↔
      E.cairo_surface_status (E.step w.ext (Call.cairo_surface_flush o.surface)) o.surface
        = CAIRO_STATUS_SUCCESS) ∧
    (surface_flush E o w).self = o := by
  simp only [surface_flush, RETURN_NULL_IF_CAIRO_SURFACE_ERROR, Pycairo_Check_Status,
    PyErr_SetString, World.query, World.invoke]
  by_cases h : E.cairo_surface_status (E.step w.ext (Call.cairo_surface_flush o.surface))
      o.surface = CAIRO_STATUS_SUCCESS
  · simp [h]
  · simp [h]

/-! ## Status checks after native calls -/

/-- C8, as stated, fails: `set_device_offset` on a surface that is in the out-of-memory
status after the native call returns `None`, not `NULL`, and never reads the status. -/
theorem C8_counterexample :
    (stillEnv CAIRO_STATUS_NO_MEMORY CAIRO_SURFACE_TYPE_IMAGE true none none).cairo_surface_status
      (surface_set_device_offset
        (stillEnv CAIRO_STATUS_NO_MEMORY CAIRO_SURFACE_TYPE_IMAGE true none none)
        { ob_type := PyTypeObject.PycairoImageSurface_Type, surface := some 7, base := none }
        (some (0, 0)) World.start).world.ext (some 7) = CAIRO_STATUS_NO_MEMORY ∧
    (surface_set_device_offset
      (stillEnv CAIRO_STATUS_NO_MEMORY CAIRO_SURFACE_TYPE_IMAGE true none none)
      { ob_type := PyTypeObject.PycairoImageSurface_Type, surface := some 7, base := none }
      (some (0, 0)) World.start).ret = some PyValue.None ∧
    (surface_set_device_offset
      (stillEnv CAIRO_STATUS_NO_MEMORY CAIRO_SURFACE_TYPE_IMAGE true none none)
      { ob_type := PyTypeObject.PycairoImageSurface_Type, surface := some 7, base := none }
      (some (0, 0)) World.start).world.calls =
      [Call.cairo_surface_set_device_offset (some 7) 0 0] :=
  ⟨rfl, rfl, rfl⟩

/-- C8, amended: the operations finish, flush, mark_dirty, dsc_begin_page_setup,
dsc_begin_setup and dsc_comment read the status of the surface right after their native
call (finish drops the keep-alive reference in between) and return `NULL` exactly when
that status is an error; the operations set_device_offset, set_fallback_resolution and
the set_size of PDF and PS surfaces make their native call and return `None` without
reading the status.  No operation changes the surface pointer. -/
theorem C8_status_checked_operations {σ : Type} (E : Env σ) (op : MutatingOp)
    (o : PycairoSurface) (w : World σ) :
    (op.run E o w).self.surface = o.surface ∧
    match op.checksStatus with
    | true =>
      (op.run E o w).world.calls =
        w.calls ++ [op.nativeCall o.surface] ++
          (if op = MutatingOp.finish then decrefCalls o.base else []) ++
          [Call.cairo_surface_status o.surface] ∧
      ((op.run E o w).ret = none ↔
        E.cairo_surface_status (op.run E o w).world.ext o.surface ≠ CAIRO_STATUS_SUCCESS) ∧
      ((op.run E o w).ret = some PyValue.None ↔
        E.cairo_surface_status (op.run E o w).world.ext o.surface = CAIRO_STATUS_SUCCESS)
    | false =>
      (op.run E o w).world.calls = w.calls ++ [op.nativeCall o.surface] ∧
      (op.run E o w).ret = some PyValue.None := by
  cases op with
  | finish =>
    simp only [MutatingOp.run, MutatingOp.checksStatus, MutatingOp.nativeCall, if_true]
    refine ⟨by rw [finish_self], finish_calls E o w, ?_, ?_⟩
    · rw [finish_ret, finish_ext]
      split <;> simp_all
    · rw [finish_ret, finish_ext]
      split <;> simp_all
  | flush =>
    simp only [MutatingOp.run, MutatingOp.checksStatus, MutatingOp.nativeCall, surface_flush,
      RETURN_NULL_IF_CAIRO_SURFACE_ERROR, Pycairo_Check_Status, PyErr_SetString,
      World.query, World.invoke]
    by_cases h : E.cairo_surface_status (E.step w.ext (Call.cairo_surface_flush o.surface))
        o.surface = CAIRO_STATUS_SUCCESS <;> simp [h]
  | mark_dirty a =>
    simp only [MutatingOp.run, MutatingOp.checksStatus, MutatingOp.nativeCall,
      surface_mark_dirty, RETURN_NULL_IF_CAIRO_SURFACE_ERROR, Pycairo_Check_Status,
      PyErr_SetString, World.query, World.invoke]
    by_cases h : E.cairo_surface_status (E.step w.ext
        (Call.cairo_surface_mark_dirty_rectangle o.surface (a.x.getD 0) (a.y.getD 0)
          (a.width.getD (-1)) (a.height.getD (-1)))) o.surface = CAIRO_STATUS_SUCCESS <;>
      simp [h]
  | set_device_offset x y =>
    simp [MutatingOp.run, MutatingOp.checksStatus, MutatingOp.nativeCall,
      surface_set_device_offset, World.invoke]
  | set_fallback_resolution x y =>
    simp [MutatingOp.run, MutatingOp.checksStatus, MutatingOp.nativeCall,
      surface_set_fallback_resolution, World.invoke]
  | pdf_set_size x y =>
    simp [MutatingOp.run, MutatingOp.checksStatus, MutatingOp.nativeCall,
      pdf_surface_set_size, World.invoke]
  | ps_set_size x y =>
    simp [MutatingOp.run, MutatingOp.checksStatus, MutatingOp.nativeCall,
      ps_surface_set_size, World.invoke]
  | ps_dsc_begin_page_setup =>
    simp only [MutatingOp.run, MutatingOp.checksStatus, MutatingOp.nativeCall,
      ps_surface_dsc_begin_page_setup, RETURN_NULL_IF_CAIRO_SURFACE_ERROR,
      Pycairo_Check_Status, PyErr_SetString, World.query, World.invoke]
    by_cases h : E.cairo_surface_status (E.step w.ext
        (Call.cairo_ps_surface_dsc_begin_page_setup o.surface)) o.surface
        = CAIRO_STATUS_SUCCESS <;> simp [h]
  | ps_dsc_begin_setup =>
    simp only [MutatingOp.run, MutatingOp.checksStatus, MutatingOp.nativeCall,
      ps_surface_dsc_begin_setup, RETURN_NULL_IF_CAIRO_SURFACE_ERROR,
      Pycairo_Check_Status, PyErr_SetString, World.query, World.invoke]
    by_cases h : E.cairo_surface_status (E.step w.ext
        (Call.cairo_ps_surface_dsc_begin_setup o.surface)) o.surface
        = CAIRO_STATUS_SUCCESS <;> simp [h]
  | ps_dsc_comment c =>
    simp only [MutatingOp.run, MutatingOp.checksStatus, MutatingOp.nativeCall,
      ps_surface_dsc_comment, RETURN_NULL_IF_CAIRO_SURFACE_ERROR,
      Pycairo_Check_Status, PyErr_SetString, World.query, World.invoke]
    by_cases h : E.cairo_surface_status (E.step w.ext
        (Call.cairo_ps_surface_dsc_comment o.surface c)) o.surface
        = CAIRO_STATUS_SUCCESS <;> simp [h]

/-! ## Stream callbacks -/

/-- C9: `_write_func` calls the `write` method of the sink exactly once, with the string
of the first `length` bytes of `data` as they are, zero bytes included; it returns
`CAIRO_STATUS_SUCCESS` exactly when that call returned a result and
`CAIRO_STATUS_WRITE_ERROR` exactly when it failed, never another status, and it does not
raise: the error indicator of the binding is left as it was.  The only other call is
the release of the result. -/
theorem C9_write_func {σ : Type} (E : Env σ) (closure : PyObj) (data : List Byte)
    (length : Nat) (w : World σ) :
    (_write_func E closure data length w).2.calls =
      w.calls ++ [Call.PyObject_CallMethod closure "write" (PyArg.bytes (data.take length))]
        ++ decrefCalls (E.PyObject_CallMethod w.ext closure "write"
            (PyArg.bytes (data.take length))) ∧
    (data.take length).length = min length data.length ∧
    data.take length ++ data.drop length = data ∧
    ((_write_func E closure data length w).1 = CAIRO_STATUS_SUCCESS ↔
      E.PyObject_CallMethod w.ext closure "write" (PyArg.bytes (data.take length)) ≠ none) ∧
    ((_write_func E closure data length w).1 = CAIRO_STATUS_WRITE_ERROR ↔
      E.PyObject_CallMethod w.ext closure "write" (PyArg.bytes (data.take length)) = none) ∧
    ((_write_func E closure data length w).1 = CAIRO_STATUS_SUCCESS ∨
      (_write_func E closure data length w).1 = CAIRO_STATUS_WRITE_ERROR) ∧
    (_write_func E closure data length w).2.exc = w.exc := by
  refine ⟨?_, List.length_take _ _, ?_, ?_⟩
  · cases h : E.PyObject_CallMethod w.ext closure "write" (PyArg.bytes (data.take length)) <;>
      simp [_write_func, h, World.invoke, decrefCalls]
  · exact List.take_append_drop _ _
  · cases h : E.PyObject_CallMethod w.ext closure "write" (PyArg.bytes (data.take length)) <;>
      simp [_write_func, h, World.invoke]

/-- C10, the code at a short read: the source returns the 2-byte string `ab` for a
request of 4 bytes, and `_read_func` returns `CAIRO_STATUS_SUCCESS`, having copied 4
bytes from the 2-byte string and the memory behind it. -/
theorem C10_short_read_returns_success :
    (_read_func (stillEnv CAIRO_STATUS_SUCCESS CAIRO_SURFACE_TYPE_IMAGE true (some 5)
      (some [97, 98])) 9 4 World.start).1 = CAIRO_STATUS_SUCCESS ∧
    (_read_func (stillEnv CAIRO_STATUS_SUCCESS CAIRO_SURFACE_TYPE_IMAGE true (some 5)
      (some [97, 98])) 9 4 World.start).2.1 = some [97, 98, 0, 0] ∧
    (_read_func (stillEnv CAIRO_STATUS_SUCCESS CAIRO_SURFACE_TYPE_IMAGE true (some 5)
      (some [97, 98])) 9 4 World.start).2.2.calls =
      [Call.PyObject_CallMethod 9 "read" (PyArg.int 4), Call.PyString_AsString 5,
        Call.Py_DECREF 5] := by
  refine ⟨rfl, ?_, rfl⟩
  decide

/-! ## Constructors of document surfaces -/

/-- The calls `PycairoSurface_FromSurface` adds to the log never create a surface. -/
theorem fromSurface_tail {σ : Type} (cfg : Config) (E : Env σ) (surface : Ptr)
    (base : Option PyObj) (w : World σ) :
    ∃ tail, (PycairoSurface_FromSurface cfg E surface base w).2.calls = w.calls ++ tail ∧
      ∀ c ∈ tail, Call.isCreate c = false := by
  by_cases hstatus : E.cairo_surface_status w.ext (some surface) = CAIRO_STATUS_SUCCESS
  · rw [fromSurface_ok cfg E surface base w hstatus]
    cases PycairoSurface_FromSurface_type cfg (E.cairo_surface_get_type w.ext surface) with
    | none =>
      exact ⟨[Call.cairo_surface_status (some surface), Call.cairo_surface_get_type surface],
        rfl, by simp [Call.isCreate, Call.isFilenameCreate, Call.isStreamCreate]⟩
    | some type =>
      by_cases halloc : E.tp_alloc w.ext type = false
      · refine ⟨[Call.cairo_surface_status (some surface), Call.cairo_surface_get_type surface,
          Call.tp_alloc type, Call.cairo_surface_destroy surface], ?_, ?_⟩
        · simp [halloc]
        · simp [Call.isCreate, Call.isFilenameCreate, Call.isStreamCreate]
      · dsimp only
        rw [if_neg halloc]
        cases base with
        | none =>
          exact ⟨[Call.cairo_surface_status (some surface),
            Call.cairo_surface_get_type surface, Call.tp_alloc type], rfl,
            by simp [Call.isCreate, Call.isFilenameCreate, Call.isStreamCreate]⟩
        | some b =>
          refine ⟨[Call.cairo_surface_status (some surface),
            Call.cairo_surface_get_type surface, Call.tp_alloc type, Call.Py_INCREF b], ?_, ?_⟩
          · simp [Py_XINCREF, World.invoke]
          · simp [Call.isCreate, Call.isFilenameCreate, Call.isStreamCreate]
  · rw [fromSurface_err cfg E surface base w hstatus]
    exact ⟨[Call.cairo_surface_status (some surface), Call.cairo_surface_destroy surface],
      rfl, by simp [Call.isCreate, Call.isFilenameCreate, Call.isStreamCreate]⟩

/-- A wrapper returned by `PycairoSurface_FromSurface` holds the surface and the base
it was called with. -/
theorem fromSurface_some {σ : Type} (cfg : Config) (E : Env σ) (surface : Ptr)
    (base : Option PyObj) (w : World σ) (o : PycairoSurface)
    (h : (PycairoSurface_FromSurface cfg E surface base w).1 = some o) :
    o.surface = some surface ∧ o.base = base := by
  by_cases hstatus : E.cairo_surface_status w.ext (some surface) = CAIRO_STATUS_SUCCESS
  · rw [fromSurface_ok cfg E surface base w hstatus] at h
    cases hty : PycairoSurface_FromSurface_type cfg (E.cairo_surface_get_type w.ext surface) with
    | none => rw [hty] at h; simp at h
    | some type =>
      rw [hty] at h
      by_cases halloc : E.tp_alloc w.ext type = false
      · simp [halloc] at h
      · dsimp only at h
        rw [if_neg halloc] at h
        simp only [Option.some.injEq] at h
        subst h
        exact ⟨rfl, rfl⟩
  · rw [fromSurface_err cfg E surface base w hstatus] at h
    simp at h

theorem isCreate_false_filename (c : Call) (h : Call.isCreate c = false) :
    Call.isFilenameCreate c = false := by
  cases c <;> simp_all [Call.isCreate, Call.isFilenameCreate, Call.isStreamCreate]

theorem isCreate_false_stream (c : Call) (h : Call.isCreate c = false) :
    Call.isStreamCreate c = false := by
  cases c <;> simp_all [Call.isCreate, Call.isFilenameCreate, Call.isStreamCreate]

theorem countP_tail_zero (p : Call → Bool) (tail : List Call)
    (h : ∀ c ∈ tail, p c = false) : tail.countP p = 0 := by
  rw [List.countP_eq_zero]
  intro c hc
  simp [h c hc]

theorem count_tail_zero (x : Call) (hx : Call.isCreate x = true) (tail : List Call)
    (h : ∀ c ∈ tail, Call.isCreate c = false) : tail.count x = 0 := by
  rw [List.count_eq_zero]
  intro hmem
  have := h x hmem
  rw [hx] at this
  exact Bool.noConfusion this

theorem callsSince_fromSurface {σ : Type} (cfg : Config) (E : Env σ) (surface : Ptr)
    (base : Option PyObj) (w w1 : World σ) (pre : List Call)
    (h : w1.calls = w.calls ++ pre) :
    ∃ tail, callsSince w (PycairoSurface_FromSurface cfg E surface base w1).2 = pre ++ tail ∧
      ∀ c ∈ tail, Call.isCreate c = false := by
  obtain ⟨tail, ht, hc⟩ := fromSurface_tail cfg E surface base w1
  refine ⟨tail, ?_, hc⟩
  rw [callsSince, ht, h, List.append_assoc, List.drop_left]

/-- The constructor of a document surface on a string target. -/
theorem surface_new_string {σ : Type} (kind : DocumentKind) (cfg : Config) (E : Env σ)
    (a : DocumentArgs) (w : World σ)
    (hs : E.PyObject_TypeCheck_PyBaseString_Type w.ext a.file = true) :
    kind.surface_new cfg E (some a) w =
      PycairoSurface_FromSurface cfg E
        (E.cairo_create (E.step w.ext (Call.PyString_AsString a.file))
          (kind.create (E.PyString_AsString w.ext a.file) a.width_in_points
            a.height_in_points))
        none
        { ext := E.step (E.step w.ext (Call.PyString_AsString a.file))
            (kind.create (E.PyString_AsString w.ext a.file) a.width_in_points
              a.height_in_points),
          calls := w.calls ++ [Call.PyObject_TypeCheck_PyBaseString_Type a.file,
            Call.PyString_AsString a.file,
            kind.create (E.PyString_AsString w.ext a.file) a.width_in_points
              a.height_in_points],
          exc := w.exc } := by
  cases kind <;>
    simp [DocumentKind.surface_new, pdf_surface_new, ps_surface_new, svg_surface_new,
      DocumentKind.create, World.query, World.invoke, hs]

/-- The constructor of a document surface on an object with a callable `write`. -/
theorem surface_new_stream {σ : Type} (kind : DocumentKind) (cfg : Config) (E : Env σ)
    (a : DocumentArgs) (w : World σ) (writer : PyObj)
    (hs : E.PyObject_TypeCheck_PyBaseString_Type w.ext a.file = false)
    (hw : E.PyObject_GetAttrString w.ext a.file "write" = some writer)
    (hc : E.PyCallable_Check (E.step w.ext (Call.PyObject_GetAttrString a.file "write"))
      writer = true) :
    kind.surface_new cfg E (some a) w =
      PycairoSurface_FromSurface cfg E
        (E.cairo_create
          (E.step (E.step w.ext (Call.PyObject_GetAttrString a.file "write"))
            (Call.Py_DECREF writer))
          (kind.create_for_stream Callback._write_func a.file a.width_in_points
            a.height_in_points))
        (some a.file)
        { ext := E.step
            (E.step (E.step w.ext (Call.PyObject_GetAttrString a.file "write"))
              (Call.Py_DECREF writer))
            (kind.create_for_stream Callback._write_func a.file a.width_in_points
              a.height_in_points),
          calls := w.calls ++ [Call.PyObject_TypeCheck_PyBaseString_Type a.file,
            Call.PyObject_GetAttrString a.file "write", Call.PyCallable_Check writer,
            Call.Py_DECREF writer,
            kind.create_for_stream Callback._write_func a.file a.width_in_points
              a.height_in_points],
          exc := w.exc } := by
  cases kind <;>
    simp [DocumentKind.surface_new, pdf_surface_new, ps_surface_new, svg_surface_new,
      DocumentKind.create_for_stream, World.query, World.invoke, hs, hw, hc]

/-- The constructor of a document surface on an object without a usable `write`. -/
theorem surface_new_no_write {σ : Type} (kind : DocumentKind) (cfg : Config) (E : Env σ)
    (a : DocumentArgs) (w : World σ)
    (hs : E.PyObject_TypeCheck_PyBaseString_Type w.ext a.file = false)
    (hw : ∀ writer, E.PyObject_GetAttrString w.ext a.file "write" = some writer →
      E.PyCallable_Check (E.step w.ext (Call.PyObject_GetAttrString a.file "write"))
        writer = false) :
    kind.surface_new cfg E (some a) w =
      (none,
        { ext := (decrefCalls (E.PyObject_GetAttrString w.ext a.file "write")).foldl E.step
            (E.step w.ext (Call.PyObject_GetAttrString a.file "write")),
          calls := w.calls ++ [Call.PyObject_TypeCheck_PyBaseString_Type a.file,
            Call.PyObject_GetAttrString a.file "write"] ++
            (match E.PyObject_GetAttrString w.ext a.file "write" with
              | some writer => [Call.PyCallable_Check writer, Call.Py_DECREF writer]
              | none => []),
          exc := some (PyExc.TypeError kind.message) }) := by
  cases hg : E.PyObject_GetAttrString w.ext a.file "write" with
  | none =>
    cases kind <;>
      simp [DocumentKind.surface_new, pdf_surface_new, ps_surface_new, svg_surface_new,
        DocumentKind.message, World.query, World.invoke, PyErr_SetString, decrefCalls, hs, hg]
  | some writer =>
    have hc := hw writer hg
    cases kind <;>
      simp [DocumentKind.surface_new, pdf_surface_new, ps_surface_new, svg_surface_new,
        DocumentKind.message, World.query, World.invoke, PyErr_SetString, decrefCalls, hs, hg,
        hc]

theorem isCreate_create (kind : DocumentKind) (f : Option (List Byte)) (x y : c_double) :
    Call.isCreate (kind.create f x y) = true ∧ Call.isFilenameCreate (kind.create f x y) = true ∧
      Call.isStreamCreate (kind.create f x y) = false := by
  cases kind <;> simp [DocumentKind.create, Call.isCreate, Call.isFilenameCreate,
    Call.isStreamCreate]

theorem isCreate_create_for_stream (kind : DocumentKind) (cb : Callback) (f : PyObj)
    (x y : c_double) :
    Call.isCreate (kind.create_for_stream cb f x y) = true ∧
      Call.isFilenameCreate (kind.create_for_stream cb f x y) = false ∧
      Call.isStreamCreate (kind.create_for_stream cb f x y) = true := by
  cases kind <;> simp [DocumentKind.create_for_stream, Call.isCreate, Call.isFilenameCreate,
    Call.isStreamCreate]

/-- C12: each of the PDF, PS and SVG constructors takes exactly one path per call.  For
a string target the filename-based creation routine of its kind is called once, with
the string, and no stream-based one.  For another object whose `write` attribute exists
and is callable the stream-based creation routine of its kind is called once, with
`_write_func` and the object as closure, and no filename-based one.  For another object
whose `write` attribute is missing or not callable the constructor returns `NULL` with
the `TypeError` of its kind and calls no creation routine at all. -/
theorem C12_document_constructor_paths {σ : Type} (kind : DocumentKind) (cfg : Config)
    (E : Env σ) (a : DocumentArgs) (w : World σ) :
    match E.PyObject_TypeCheck_PyBaseString_Type w.ext a.file with
    | true =>
      (callsSince w (kind.surface_new cfg E (some a) w).2).count
        (kind.create (E.PyString_AsString w.ext a.file) a.width_in_points
          a.height_in_points) = 1 ∧
      (callsSince w (kind.surface_new cfg E (some a) w).2).countP Call.isFilenameCreate = 1 ∧
      (callsSince w (kind.surface_new cfg E (some a) w).2).countP Call.isStreamCreate = 0
    | false =>
      match E.PyObject_GetAttrString w.ext a.file "write" with
      | none =>
        (kind.surface_new cfg E (some a) w).1 = none ∧
        (kind.surface_new cfg E (some a) w).2.exc = some (PyExc.TypeError kind.message) ∧
        (callsSince w (kind.surface_new cfg E (some a) w).2).countP Call.isCreate = 0
      | some writer =>
        if E.PyCallable_Check
            (E.step w.ext (Call.PyObject_GetAttrString a.file "write")) writer = true then
          (callsSince w (kind.surface_new cfg E (some a) w).2).count
            (kind.create_for_stream Callback._write_func a.file a.width_in_points
              a.height_in_points) = 1 ∧
          (callsSince w (kind.surface_new cfg E (some a) w).2).countP Call.isStreamCreate = 1 ∧
          (callsSince w (kind.surface_new cfg E (some a) w).2).countP
            Call.isFilenameCreate = 0
        else
          (kind.surface_new cfg E (some a) w).1 = none ∧
          (kind.surface_new cfg E (some a) w).2.exc = some (PyExc.TypeError kind.message) ∧
          (callsSince w (kind.surface_new cfg E (some a) w).2).countP Call.isCreate = 0 := by
  cases hs : E.PyObject_TypeCheck_PyBaseString_Type w.ext a.file with
  | true =>
    dsimp only
    rw [surface_new_string kind cfg E a w hs]
    obtain ⟨tail, ht, hc⟩ := callsSince_fromSurface cfg E
      (E.cairo_create (E.step w.ext (Call.PyString_AsString a.file))
        (kind.create (E.PyString_AsString w.ext a.file) a.width_in_points
          a.height_in_points))
      none w
      { ext := E.step (E.step w.ext (Call.PyString_AsString a.file))
          (kind.create (E.PyString_AsString w.ext a.file) a.width_in_points
            a.height_in_points),
        calls := w.calls ++ [Call.PyObject_TypeCheck_PyBaseString_Type a.file,
          Call.PyString_AsString a.file,
          kind.create (E.PyString_AsString w.ext a.file) a.width_in_points
            a.height_in_points],
        exc := w.exc } _ rfl
    rw [ht]
    obtain ⟨k1, k2, k3⟩ := isCreate_create kind (E.PyString_AsString w.ext a.file)
      a.width_in_points a.height_in_points
    have h1 := countP_tail_zero Call.isFilenameCreate tail
      (fun c hc1 => isCreate_false_filename c (hc c hc1))
    have h2 := countP_tail_zero Call.isStreamCreate tail
      (fun c hc1 => isCreate_false_stream c (hc c hc1))
    have h3 := count_tail_zero _ k1 tail hc
    refine ⟨?_, ?_, ?_⟩
    · rw [List.count_append, h3]
      have e1 : Call.PyObject_TypeCheck_PyBaseString_Type a.file ≠
          kind.create (E.PyString_AsString w.ext a.file) a.width_in_points
            a.height_in_points := by
        intro h; rw [← h] at k1; simp [Call.isCreate, Call.isFilenameCreate,
          Call.isStreamCreate] at k1
      have e2 : Call.PyString_AsString a.file ≠
          kind.create (E.PyString_AsString w.ext a.file) a.width_in_points
            a.height_in_points := by
        intro h; rw [← h] at k1; simp [Call.isCreate, Call.isFilenameCreate,
          Call.isStreamCreate] at k1
      simp [List.count_cons, e1, e2]
    · rw [List.countP_append, h1]
      simp [List.countP_cons, k2,
        show Call.isFilenameCreate (Call.PyObject_TypeCheck_PyBaseString_Type a.file) = false
          from rfl,
        show Call.isFilenameCreate (Call.PyString_AsString a.file) = false from rfl]
    · rw [List.countP_append, h2]
      simp [List.countP_cons, k3,
        show Call.isStreamCreate (Call.PyObject_TypeCheck_PyBaseString_Type a.file) = false
          from rfl,
        show Call.isStreamCreate (Call.PyString_AsString a.file) = false from rfl]
  | false =>
    dsimp only
    cases hg : E.PyObject_GetAttrString w.ext a.file "write" with
    | none =>
      dsimp only
      rw [surface_new_no_write kind cfg E a w hs (by intro x hx; rw [hg] at hx; cases hx)]
      refine ⟨rfl, rfl, ?_⟩
      simp [callsSince, hg, Call.isCreate, Call.isFilenameCreate, Call.isStreamCreate]
    | some writer =>
      dsimp only
      by_cases hcall : E.PyCallable_Check
          (E.step w.ext (Call.PyObject_GetAttrString a.file "write")) writer = true
      · rw [if_pos hcall, surface_new_stream kind cfg E a w writer hs hg hcall]
        obtain ⟨tail, ht, hc⟩ := callsSince_fromSurface cfg E
          (E.cairo_create
            (E.step (E.step w.ext (Call.PyObject_GetAttrString a.file "write"))
              (Call.Py_DECREF writer))
            (kind.create_for_stream Callback._write_func a.file a.width_in_points
              a.height_in_points))
          (some a.file) w
          { ext := E.step
              (E.step (E.step w.ext (Call.PyObject_GetAttrString a.file "write"))
                (Call.Py_DECREF writer))
              (kind.create_for_stream Callback._write_func a.file a.width_in_points
                a.height_in_points),
            calls := w.calls ++ [Call.PyObject_TypeCheck_PyBaseString_Type a.file,
              Call.PyObject_GetAttrString a.file "write", Call.PyCallable_Check writer,
              Call.Py_DECREF writer,
              kind.create_for_stream Callback._write_func a.file a.width_in_points
                a.height_in_points],
            exc := w.exc } _ rfl
        rw [ht]
        obtain ⟨k1, k2, k3⟩ := isCreate_create_for_stream kind Callback._write_func a.file
          a.width_in_points a.height_in_points
        have h1 := countP_tail_zero Call.isFilenameCreate tail
          (fun c hc1 => isCreate_false_filename c (hc c hc1))
        have h2 := countP_tail_zero Call.isStreamCreate tail
          (fun c hc1 => isCreate_false_stream c (hc c hc1))
        have h3 := count_tail_zero _ k1 tail hc
        have ne : ∀ c : Call, Call.isCreate c = false →
            c ≠ kind.create_for_stream Callback._write_func a.file a.width_in_points
              a.height_in_points := by
          intro c hc1 h; rw [h, k1] at hc1; exact Bool.noConfusion hc1
        refine ⟨?_, ?_, ?_⟩
        · rw [List.count_append, h3]
          simp [List.count_cons, ne _ (show Call.isCreate
              (Call.PyObject_TypeCheck_PyBaseString_Type a.file) = false from rfl),
            ne _ (show Call.isCreate (Call.PyObject_GetAttrString a.file "write") = false
              from rfl),
            ne _ (show Call.isCreate (Call.PyCallable_Check writer) = false from rfl),
            ne _ (show Call.isCreate (Call.Py_DECREF writer) = false from rfl)]
        · rw [List.countP_append, h2]
          simp [List.countP_cons, k3,
            show Call.isStreamCreate (Call.PyObject_TypeCheck_PyBaseString_Type a.file)
              = false from rfl,
            show Call.isStreamCreate (Call.PyObject_GetAttrString a.file "write") = false
              from rfl,
            show Call.isStreamCreate (Call.PyCallable_Check writer) = false from rfl,
            show Call.isStreamCreate (Call.Py_DECREF writer) = false from rfl]
        · rw [List.countP_append, h1]
          simp [List.countP_cons, k2,
            show Call.isFilenameCreate (Call.PyObject_TypeCheck_PyBaseString_Type a.file)
              = false from rfl,
            show Call.isFilenameCreate (Call.PyObject_GetAttrString a.file "write") = false
              from rfl,
            show Call.isFilenameCreate (Call.PyCallable_Check writer) = false from rfl,
            show Call.isFilenameCreate (Call.Py_DECREF writer) = false from rfl]
      · rw [if_neg hcall]
        have hcf : E.PyCallable_Check
            (E.step w.ext (Call.PyObject_GetAttrString a.file "write")) writer = false := by
          simpa using hcall
        rw [surface_new_no_write kind cfg E a w hs
          (by intro x hx; rw [hg] at hx; cases hx; exact hcf)]
        refine ⟨rfl, rfl, ?_⟩
        simp [callsSince, hg, Call.isCreate, Call.isFilenameCreate, Call.isStreamCreate]

/-! ## Invariants of the wrapper over sequences of method calls -/

theorem mutating_self {σ : Type} (E : Env σ) (op : MutatingOp) (o : PycairoSurface)
    (w : World σ) :
    (op.run E o w).self = if op = MutatingOp.finish then { o with base := none } else o := by
  cases op with
  | finish => simp [MutatingOp.run, finish_self]
  | flush => simp only [MutatingOp.run, surface_flush]; split <;> simp
  | mark_dirty a => simp only [MutatingOp.run, surface_mark_dirty]; split <;> simp
  | set_device_offset x y => simp [MutatingOp.run, surface_set_device_offset]
  | set_fallback_resolution x y => simp [MutatingOp.run, surface_set_fallback_resolution]
  | pdf_set_size x y => simp [MutatingOp.run, pdf_surface_set_size]
  | ps_set_size x y => simp [MutatingOp.run, ps_surface_set_size]
  | ps_dsc_begin_page_setup =>
    simp only [MutatingOp.run, ps_surface_dsc_begin_page_setup]; split <;> simp
  | ps_dsc_begin_setup =>
    simp only [MutatingOp.run, ps_surface_dsc_begin_setup]; split <;> simp
  | ps_dsc_comment c => simp only [MutatingOp.run, ps_surface_dsc_comment]; split <;> simp

theorem write_to_png_self {σ : Type} (E : Env σ) (o : PycairoSurface) (file : PyObj)
    (w : World σ) : (surface_write_to_png E o file w).self = o := by
  unfold surface_write_to_png
  dsimp only
  split
  · split <;> rfl
  · split
    · rfl
    · split
      · rfl
      · split <;> rfl

/-- Every instance method leaves the fields of the wrapper as they were, except
`finish`, which clears the keep-alive reference. -/
theorem run_self {σ : Type} (cfg : Config) (E : Env σ) (op : SurfaceOp) (o : PycairoSurface)
    (w : World σ) :
    (op.run cfg E o w).self =
      if op = SurfaceOp.mutating MutatingOp.finish then { o with base := none } else o := by
  cases op with
  | mutating m =>
    simp only [SurfaceOp.run, mutating_self, SurfaceOp.mutating.injEq]
  | write_to_png file => simp [SurfaceOp.run, write_to_png_self]
  | create_similar c x y => simp [SurfaceOp.run, surface_create_similar]
  | get_content => simp [SurfaceOp.run, surface_get_content, PyInt_FromLong_getter]
  | get_device_offset => simp [SurfaceOp.run, surface_get_device_offset]
  | get_font_options => simp [SurfaceOp.run, surface_get_font_options]
  | image_get_data => simp [SurfaceOp.run, image_surface_get_data]
  | image_get_format => simp [SurfaceOp.run, image_surface_get_format, PyInt_FromLong_getter]
  | image_get_height => simp [SurfaceOp.run, image_surface_get_height, PyInt_FromLong_getter]
  | image_get_width => simp [SurfaceOp.run, image_surface_get_width, PyInt_FromLong_getter]
  | image_get_stride => simp [SurfaceOp.run, image_surface_get_stride, PyInt_FromLong_getter]
  | xlib_get_depth => simp [SurfaceOp.run, xlib_surface_get_depth, PyInt_FromLong_getter]
  | xlib_get_height => simp [SurfaceOp.run, xlib_surface_get_height, PyInt_FromLong_getter]
  | xlib_get_width => simp [SurfaceOp.run, xlib_surface_get_width, PyInt_FromLong_getter]

theorem runOps_surface {σ : Type} (cfg : Config) (E : Env σ) (ops : List SurfaceOp)
    (o : PycairoSurface) (w : World σ) :
    (runOps cfg E ops (o, w)).1.surface = o.surface := by
  induction ops generalizing o w with
  | nil => rfl
  | cons op rest ih =>
    rw [runOps]
    dsimp only
    rw [ih, run_self]
    split <;> rfl

theorem runOps_base {σ : Type} (cfg : Config) (E : Env σ) (ops : List SurfaceOp)
    (o : PycairoSurface) (w : World σ) :
    (runOps cfg E ops (o, w)).1.base =
      if SurfaceOp.mutating MutatingOp.finish ∈ ops then none else o.base := by
  induction ops generalizing o w with
  | nil => simp [runOps]
  | cons op rest ih =>
    rw [runOps]
    dsimp only
    rw [ih, run_self]
    by_cases hop : op = SurfaceOp.mutating MutatingOp.finish
    · subst hop
      simp
    · have hne : ¬ SurfaceOp.mutating MutatingOp.finish = op := fun h => hop h.symm
      simp [hop, hne]

/-- What an operation other than `finish` does: its native call, then the status read
when its C function makes one, and the result the status decides. -/
theorem mutating_run {σ : Type} (E : Env σ) (op : MutatingOp) (o : PycairoSurface)
    (w : World σ) (hop : op ≠ MutatingOp.finish) :
    (op.run E o w).world.ext = E.step w.ext (op.nativeCall o.surface) ∧
    (op.run E o w).world.calls =
      w.calls ++ [op.nativeCall o.surface] ++
        (if op.checksStatus = true then [Call.cairo_surface_status o.surface] else []) ∧
    (op.run E o w).ret =
      if op.checksStatus = true ∧
          E.cairo_surface_status (E.step w.ext (op.nativeCall o.surface)) o.surface
            ≠ CAIRO_STATUS_SUCCESS
      then none else some PyValue.None := by
  by_cases h : E.cairo_surface_status (E.step w.ext (op.nativeCall o.surface)) o.surface
      = CAIRO_STATUS_SUCCESS
  · cases op <;> simp only [MutatingOp.nativeCall] at h <;>
      simp_all [MutatingOp.run, MutatingOp.nativeCall, MutatingOp.checksStatus, surface_flush,
        surface_mark_dirty, surface_set_device_offset, surface_set_fallback_resolution,
        pdf_surface_set_size, ps_surface_set_size, ps_surface_dsc_begin_page_setup,
        ps_surface_dsc_begin_setup, ps_surface_dsc_comment,
        RETURN_NULL_IF_CAIRO_SURFACE_ERROR, Pycairo_Check_Status, PyErr_SetString,
        World.query, World.invoke]
  · cases op <;> simp only [MutatingOp.nativeCall] at h <;>
      simp_all [MutatingOp.run, MutatingOp.nativeCall, MutatingOp.checksStatus, surface_flush,
        surface_mark_dirty, surface_set_device_offset, surface_set_fallback_resolution,
        pdf_surface_set_size, ps_surface_set_size, ps_surface_dsc_begin_page_setup,
        ps_surface_dsc_begin_setup, ps_surface_dsc_comment,
        RETURN_NULL_IF_CAIRO_SURFACE_ERROR, Pycairo_Check_Status, PyErr_SetString,
        World.query, World.invoke]

/-- The keep-alive reference of a document surface that was just constructed: none for a
string target, the target itself otherwise. -/
theorem surface_new_base {σ : Type} (kind : DocumentKind) (cfg : Config) (E : Env σ)
    (a : DocumentArgs) (w : World σ) (o : PycairoSurface)
    (h : (kind.surface_new cfg E (some a) w).1 = some o) :
    o.base = if E.PyObject_TypeCheck_PyBaseString_Type w.ext a.file = true then none
      else some a.file := by
  cases hs : E.PyObject_TypeCheck_PyBaseString_Type w.ext a.file with
  | true =>
    rw [surface_new_string kind cfg E a w hs] at h
    simp [(fromSurface_some cfg E _ _ _ o h).2]
  | false =>
    cases hg : E.PyObject_GetAttrString w.ext a.file "write" with
    | none =>
      rw [surface_new_no_write kind cfg E a w hs (by intro x hx; rw [hg] at hx; cases hx)] at h
      cases h
    | some writer =>
      by_cases hcall : E.PyCallable_Check
          (E.step w.ext (Call.PyObject_GetAttrString a.file "write")) writer = true
      · rw [surface_new_stream kind cfg E a w writer hs hg hcall] at h
        simp [(fromSurface_some cfg E _ _ _ o h).2]
      · have hcf : E.PyCallable_Check
            (E.step w.ext (Call.PyObject_GetAttrString a.file "write")) writer = false := by
          simpa using hcall
        rw [surface_new_no_write kind cfg E a w hs
          (by intro x hx; rw [hg] at hx; cases hx; exact hcf)] at h
        cases h

/-- C13, as stated, fails: a PDF surface constructed against the stream object 9 holds
it as keep-alive reference, and after `finish ()`, before any release, the keep-alive
field is `NULL`. -/
theorem C13_counterexample :
    (pdf_surface_new allBackends
      (stillEnv CAIRO_STATUS_SUCCESS CAIRO_SURFACE_TYPE_PDF true (some 5) none)
      (some { file := 9, width_in_points := 0, height_in_points := 0 }) World.start).1 =
      some { ob_type := PyTypeObject.PycairoPDFSurface_Type, surface := some 7,
             base := some 9 } ∧
    (runOps allBackends
      (stillEnv CAIRO_STATUS_SUCCESS CAIRO_SURFACE_TYPE_PDF true (some 5) none)
      [SurfaceOp.mutating MutatingOp.finish]
      ({ ob_type := PyTypeObject.PycairoPDFSurface_Type, surface := some 7, base := some 9 },
        (pdf_surface_new allBackends
          (stillEnv CAIRO_STATUS_SUCCESS CAIRO_SURFACE_TYPE_PDF true (some 5) none)
          (some { file := 9, width_in_points := 0, height_in_points := 0 })
          World.start).2)).1.base = none :=
  ⟨rfl, rfl⟩

/-- C13, amended: a document surface (PDF, PS or SVG) constructed against a stream
object holds that object as its keep-alive reference, and one constructed from a
filename holds none; after any sequence of method calls the keep-alive field is still
what it was at construction if the sequence has no `finish ()`, and it is `NULL` if the
sequence has one. -/
theorem C13_keep_alive_until_finish {σ : Type} (kind : DocumentKind) (cfg : Config)
    (E : Env σ) (a : DocumentArgs) (w : World σ) (ops : List SurfaceOp) :
    match (kind.surface_new cfg E (some a) w).1 with
    | some o =>
      o.base = (if E.PyObject_TypeCheck_PyBaseString_Type w.ext a.file = true then none
        else some a.file) ∧
      (runOps cfg E ops (o, (kind.surface_new cfg E (some a) w).2)).1.base =
        if SurfaceOp.mutating MutatingOp.finish ∈ ops then none else o.base
    | none => True := by
  cases h : (kind.surface_new cfg E (some a) w).1 with
  | none => trivial
  | some o =>
    exact ⟨surface_new_base kind cfg E a w o h, runOps_base cfg E ops o _⟩

/-- C18: the surface pointer of a wrapper.  A wrapper returned by
`PycairoSurface_FromSurface` holds the surface it was made for; no method changes the
surface pointer of a wrapper, so after any sequence of method calls the pointer is
still that surface, not `NULL`; and after the release step of `surface_dealloc` it is
`NULL`. -/
theorem C18_surface_pointer_invariant {σ : Type} (cfg : Config) (E : Env σ) (surface : Ptr)
    (base : Option PyObj) (w : World σ) (o : PycairoSurface) (ops : List SurfaceOp)
    (h : (PycairoSurface_FromSurface cfg E surface base w).1 = some o) :
    o.surface = some surface ∧
    (runOps cfg E ops (o, (PycairoSurface_FromSurface cfg E surface base w).2)).1.surface
      = some surface ∧
    (∀ (op : SurfaceOp) (o2 : PycairoSurface) (w2 : World σ),
      (op.run cfg E o2 w2).self.surface = o2.surface) ∧
    (surface_dealloc_release E
      (runOps cfg E ops (o, (PycairoSurface_FromSurface cfg E surface base w).2)).1
      (runOps cfg E ops (o, (PycairoSurface_FromSurface cfg E surface base w).2)).2).1.surface
      = none := by
  have hs := (fromSurface_some cfg E surface base w o h).1
  refine ⟨hs, by rw [runOps_surface, hs], ?_, by rw [release_self]⟩
  intro op o2 w2
  rw [run_self]
  split <;> rfl

/-- C18, at a PDF surface wrapped for the stream object 9, then flushed, finished,
queried and written to a file-like object. -/
theorem C18_surface_pointer_invariant_witness :
    (runOps allBackends
      (stillEnv CAIRO_STATUS_SUCCESS CAIRO_SURFACE_TYPE_PDF true (some 5) none)
      [SurfaceOp.mutating MutatingOp.flush, SurfaceOp.mutating MutatingOp.finish,
        SurfaceOp.get_content, SurfaceOp.write_to_png 5]
      ({ ob_type := PyTypeObject.PycairoPDFSurface_Type, surface := some 7, base := some 9 },
        (PycairoSurface_FromSurface allBackends
          (stillEnv CAIRO_STATUS_SUCCESS CAIRO_SURFACE_TYPE_PDF true (some 5) none)
          7 (some 9) World.start).2)).1.surface = some 7 :=
  (C18_surface_pointer_invariant allBackends
    (stillEnv CAIRO_STATUS_SUCCESS CAIRO_SURFACE_TYPE_PDF true (some 5) none)
    7 (some 9) World.start
    { ob_type := PyTypeObject.PycairoPDFSurface_Type, surface := some 7, base := some 9 }
    [SurfaceOp.mutating MutatingOp.flush, SurfaceOp.mutating MutatingOp.finish,
      SurfaceOp.get_content, SurfaceOp.write_to_png 5] rfl).2.1

/-! ## ImageSurface.create_for_data -/

theorem c_int_of_range (x : Int) (h0 : -(2 ^ 31) ≤ x) (h1 : x < 2 ^ 31) : c_int x = x := by
  unfold c_int
  omega

/-- C14: `image_surface_create_for_data` rejects its arguments before it touches cairo.
An object without a writable buffer makes it return `NULL` right after
`PyObject_AsWriteBuffer`, whatever the dimensions.  With a writable buffer, a width
that is not positive gives `ValueError "width must be positive"`, and otherwise a
height that is not positive gives `ValueError "height must be positive"`; in both cases
no wrapper is returned and the only call made is `PyObject_AsWriteBuffer`: no creation
routine is called and no reference count is touched. -/
theorem C14_create_for_data_rejects_dimensions {σ : Type} (cfg : Config) (E : Env σ)
    (a : CreateForDataArgs) (w : World σ) :
    match E.PyObject_AsWriteBuffer w.ext a.obj with
    | none =>
      (image_surface_create_for_data cfg E (some a) w).1 = none ∧
      (image_surface_create_for_data cfg E (some a) w).2.exc = w.exc ∧
      (image_surface_create_for_data cfg E (some a) w).2.calls =
        w.calls ++ [Call.PyObject_AsWriteBuffer a.obj]
    | some _ =>
      if a.width ≤ 0 then
        (image_surface_create_for_data cfg E (some a) w).1 = none ∧
        (image_surface_create_for_data cfg E (some a) w).2.exc =
          some (PyExc.ValueError "width must be positive") ∧
        (image_surface_create_for_data cfg E (some a) w).2.calls =
          w.calls ++ [Call.PyObject_AsWriteBuffer a.obj]
      else if a.height ≤ 0 then
        (image_surface_create_for_data cfg E (some a) w).1 = none ∧
        (image_surface_create_for_data cfg E (some a) w).2.exc =
          some (PyExc.ValueError "height must be positive") ∧
        (image_surface_create_for_data cfg E (some a) w).2.calls =
          w.calls ++ [Call.PyObject_AsWriteBuffer a.obj]
      else True := by
  cases hb : E.PyObject_AsWriteBuffer w.ext a.obj with
  | none => simp [image_surface_create_for_data, hb, World.invoke]
  | some len =>
    dsimp only
    by_cases hw : a.width ≤ 0
    · simp [image_surface_create_for_data, hb, World.invoke, PyErr_SetString, hw]
    · rw [if_neg hw]
      by_cases hh : a.height ≤ 0
      · simp [image_surface_create_for_data, hb, World.invoke, PyErr_SetString, hw, hh]
      · rw [if_neg hh]
        trivial

/-- The stride computed by the code is the stride of the rule whenever the products of
the rule fit an `int`. -/
theorem stride_refines_rule (format : cairo_format_t) (width : Int) (stride : Option Int)
    (s : Int) (hw : 0 < width) (hrange : width * 4 < 2 ^ 31)
    (hs : strideRule format width stride = some s) :
    image_surface_create_for_data_stride format width (stride.getD (-1)) = some s := by
  cases stride with
  | some x =>
    simp only [strideRule] at hs
    by_cases hx : 0 ≤ x
    · rw [if_pos hx] at hs
      cases hs
      have hx2 : ¬ s < 0 := by omega
      simp [image_surface_create_for_data_stride, hx2]
    · rw [if_neg hx] at hs
      cases hs
  | none =>
    simp only [strideRule] at hs
    simp only [image_surface_create_for_data_stride, Option.getD_none]
    rw [if_pos (by decide)]
    rw [c_int_of_range (width * 4) (by omega) hrange,
      c_int_of_range (width * 2) (by omega) (by omega),
      c_int_of_range (width + 1) (by omega) (by omega),
      Int.tdiv_eq_ediv (by omega) (by omega)]
    exact hs

/-- The creating call of `image_surface_create_for_data` when every check passes. -/
theorem create_for_data_passes {σ : Type} (cfg : Config) (E : Env σ) (a : CreateForDataArgs)
    (w : World σ) (len : Nat) (s : Int)
    (hbuf : E.PyObject_AsWriteBuffer w.ext a.obj = some len)
    (hw : 0 < a.width) (hh : 0 < a.height)
    (hs : image_surface_create_for_data_stride a.format a.width (a.stride.getD (-1)) = some s)
    (hlen : ¬ c_int (a.height * s) > (len : Int)) :
    image_surface_create_for_data cfg E (some a) w =
      PycairoSurface_FromSurface cfg E
        (E.cairo_create (E.step w.ext (Call.PyObject_AsWriteBuffer a.obj))
          (Call.cairo_image_surface_create_for_data a.obj a.format a.width a.height s))
        (some a.obj)
        { ext := E.step (E.step w.ext (Call.PyObject_AsWriteBuffer a.obj))
            (Call.cairo_image_surface_create_for_data a.obj a.format a.width a.height s),
          calls := w.calls ++ [Call.PyObject_AsWriteBuffer a.obj,
            Call.cairo_image_surface_create_for_data a.obj a.format a.width a.height s],
          exc := w.exc } := by
  have hw2 : ¬ a.width ≤ 0 := by omega
  have hh2 : ¬ a.height ≤ 0 := by omega
  simp only [image_surface_create_for_data, hbuf, World.invoke, hw2, hh2, if_false, hs]
  rw [if_neg hlen]
  simp

/-- C16, the code at an overflowing product: for ARGB32, width 65536, height 16384 and no
stride, the stride is 262144 and `height * stride` is 2^32, which is 0 as an `int`; with
a writable buffer of 1 byte the length check passes, the creation routine of cairo is
called and a wrapper is returned, although the buffer is shorter than the product.  Next
to it, the example of the specification: ARGB32, 10 by 10, no stride gives stride 40; a
buffer of 399 bytes is refused with `TypeError "buffer is not long enough"` before any
creation call, and a buffer of 400 bytes reaches the creation routine. -/
theorem C16_length_check_overflow :
    (image_surface_create_for_data allBackends (bufferEnv 1)
      (some { obj := 3, format := CAIRO_FORMAT_ARGB32, width := 65536, height := 16384,
              stride := none }) World.start).1 =
      some { ob_type := PyTypeObject.PycairoImageSurface_Type, surface := some 7,
             base := some 3 } ∧
    (image_surface_create_for_data allBackends (bufferEnv 1)
      (some { obj := 3, format := CAIRO_FORMAT_ARGB32, width := 65536, height := 16384,
              stride := none }) World.start).2.calls =
      [Call.PyObject_AsWriteBuffer 3,
       Call.cairo_image_surface_create_for_data 3 CAIRO_FORMAT_ARGB32 65536 16384 262144,
       Call.cairo_surface_status (some 7), Call.cairo_surface_get_type 7,
       Call.tp_alloc PyTypeObject.PycairoImageSurface_Type, Call.Py_INCREF 3] ∧
    (16384 : Int) * 262144 > 1 ∧
    (image_surface_create_for_data allBackends (bufferEnv 399)
      (some { obj := 3, format := CAIRO_FORMAT_ARGB32, width := 10, height := 10,
              stride := none }) World.start).1 = none ∧
    (image_surface_create_for_data allBackends (bufferEnv 399)
      (some { obj := 3, format := CAIRO_FORMAT_ARGB32, width := 10, height := 10,
              stride := none }) World.start).2.exc =
      some (PyExc.TypeError "buffer is not long enough") ∧
    (image_surface_create_for_data allBackends (bufferEnv 399)
      (some { obj := 3, format := CAIRO_FORMAT_ARGB32, width := 10, height := 10,
              stride := none }) World.start).2.calls = [Call.PyObject_AsWriteBuffer 3] ∧
    (image_surface_create_for_data allBackends (bufferEnv 400)
      (some { obj := 3, format := CAIRO_FORMAT_ARGB32, width := 10, height := 10,
              stride := none }) World.start).2.calls =
      [Call.PyObject_AsWriteBuffer 3,
       Call.cairo_image_surface_create_for_data 3 CAIRO_FORMAT_ARGB32 10 10 40,
       Call.cairo_surface_status (some 7), Call.cairo_surface_get_type 7,
       Call.tp_alloc PyTypeObject.PycairoImageSurface_Type, Call.Py_INCREF 3] := by
  refine ⟨?_, ?_, ?_, ?_, ?_, ?_, ?_⟩ <;> decide

/-- C20: the default stride of the 1-bit format A1, `(width + 1) / 8`, against the
32-bit-aligned stride `(width + 31) / 32 * 4` of the comment beside it.  For every
positive `int` width the derived stride is at most the aligned one; and at width 1 the
derived stride is 0 against 4, too small to hold the one pixel of a row. -/
theorem C20_a1_stride_below_aligned (width : Int) (hpos : 0 < width)
    (hint : width < 2 ^ 31) :
    (∃ s, image_surface_create_for_data_stride CAIRO_FORMAT_A1 width (-1) = some s ∧
      s ≤ (width + 31) / 32 * 4) ∧
    image_surface_create_for_data_stride CAIRO_FORMAT_A1 1 (-1) = some 0 ∧
    ((1 : Int) + 31) / 32 * 4 = 4 ∧
    (8 : Int) * 0 < 1 := by
  refine ⟨⟨Int.tdiv (c_int (width + 1)) 8, ?_, ?_⟩, by decide, by decide, by decide⟩
  · simp [image_surface_create_for_data_stride]
  · by_cases hmax : width + 1 < 2 ^ 31
    · rw [c_int_of_range (width + 1) (by omega) hmax, Int.tdiv_eq_ediv (by omega) (by omega)]
      omega
    · have hw : width = 2 ^ 31 - 1 := by omega
      subst hw
      decide

/-- C20, at width 9: the derived stride is 1 byte for 9 pixels, the aligned one 4. -/
theorem C20_a1_stride_below_aligned_witness :
    (0 : Int) < 9 ∧
    ∃ s, image_surface_create_for_data_stride CAIRO_FORMAT_A1 9 (-1) = some s ∧
      s ≤ ((9 : Int) + 31) / 32 * 4 :=
  ⟨by decide, (C20_a1_stride_below_aligned 9 (by decide) (by decide)).1⟩

/-! ## Surface.write_to_png -/

/-- C19: `surface_write_to_png` selects its path by the kind of the target and returns
the status of cairo.  For a string it calls the filename-based PNG writer; for another
object whose `write` attribute exists and is callable it calls the stream-based PNG
writer with `_write_func` and the target as closure; in both cases it returns `NULL`
exactly when the status cairo returned is not success, and `None` otherwise.  For
another object without a callable `write` it returns `NULL` with `TypeError` and calls
no routine of cairo.  The wrapper is unchanged; the call takes no reference, and the
only reference it drops is the one `PyObject_GetAttrString` gave it for the attribute,
so the reference count of the target is as before. -/
theorem C19_write_to_png {σ : Type} (E : Env σ) (o : PycairoSurface) (file : PyObj)
    (w : World σ) :
    (surface_write_to_png E o file w).self = o ∧
    (∀ x, increfs x (callsSince w (surface_write_to_png E o file w).world) = 0) ∧
    (∀ x, decrefs x (callsSince w (surface_write_to_png E o file w).world) =
      if E.PyObject_TypeCheck_PyBaseString_Type w.ext file = false ∧
          E.PyObject_GetAttrString w.ext file "write" = some x then 1 else 0) ∧
    match E.PyObject_TypeCheck_PyBaseString_Type w.ext file with
    | true =>
      callsSince w (surface_write_to_png E o file w).world =
        [Call.PyObject_TypeCheck_PyBaseString_Type file, Call.PyString_AsString file,
          Call.cairo_surface_write_to_png o.surface (E.PyString_AsString w.ext file)] ∧
      ((surface_write_to_png E o file w).ret = none ↔
        E.cairo_call_status (E.step w.ext (Call.PyString_AsString file))
          (Call.cairo_surface_write_to_png o.surface (E.PyString_AsString w.ext file))
          ≠ CAIRO_STATUS_SUCCESS) ∧
      ((surface_write_to_png E o file w).ret = some PyValue.None ↔
        E.cairo_call_status (E.step w.ext (Call.PyString_AsString file))
          (Call.cairo_surface_write_to_png o.surface (E.PyString_AsString w.ext file))
          = CAIRO_STATUS_SUCCESS)
    | false =>
      match E.PyObject_GetAttrString w.ext file "write" with
      | none =>
        callsSince w (surface_write_to_png E o file w).world =
          [Call.PyObject_TypeCheck_PyBaseString_Type file,
            Call.PyObject_GetAttrString file "write"] ∧
        (surface_write_to_png E o file w).ret = none ∧
        (surface_write_to_png E o file w).world.exc =
          some (PyExc.TypeError write_to_png_message)
      | some writer =>
        if E.PyCallable_Check (E.step w.ext (Call.PyObject_GetAttrString file "write"))
            writer = true then
          callsSince w (surface_write_to_png E o file w).world =
            [Call.PyObject_TypeCheck_PyBaseString_Type file,
              Call.PyObject_GetAttrString file "write", Call.PyCallable_Check writer,
              Call.Py_DECREF writer,
              Call.cairo_surface_write_to_png_stream o.surface Callback._write_func file] ∧
          ((surface_write_to_png E o file w).ret = none ↔
            E.cairo_call_status
              (E.step (E.step w.ext (Call.PyObject_GetAttrString file "write"))
                (Call.Py_DECREF writer))
              (Call.cairo_surface_write_to_png_stream o.surface Callback._write_func file)
              ≠ CAIRO_STATUS_SUCCESS) ∧
          ((surface_write_to_png E o file w).ret = some PyValue.None ↔
            E.cairo_call_status
              (E.step (E.step w.ext (Call.PyObject_GetAttrString file "write"))
                (Call.Py_DECREF writer))
              (Call.cairo_surface_write_to_png_stream o.surface Callback._write_func file)
              = CAIRO_STATUS_SUCCESS)
        else
          callsSince w (surface_write_to_png E o file w).world =
            [Call.PyObject_TypeCheck_PyBaseString_Type file,
              Call.PyObject_GetAttrString file "write", Call.PyCallable_Check writer,
              Call.Py_DECREF writer] ∧
          (surface_write_to_png E o file w).ret = none ∧
          (surface_write_to_png E o file w).world.exc =
            some (PyExc.TypeError write_to_png_message) := by
  refine ⟨write_to_png_self E o file w, ?_, ?_, ?_⟩
  · intro x
    cases hs : E.PyObject_TypeCheck_PyBaseString_Type w.ext file with
    | true =>
      by_cases hst : E.cairo_call_status (E.step w.ext (Call.PyString_AsString file))
          (Call.cairo_surface_write_to_png o.surface (E.PyString_AsString w.ext file))
          = CAIRO_STATUS_SUCCESS <;>
        simp [surface_write_to_png, hs, hst, World.query, World.invoke,
          RETURN_NULL_IF_CAIRO_ERROR, Pycairo_Check_Status, PyErr_SetString, callsSince,
          increfs]
    | false =>
      cases hg : E.PyObject_GetAttrString w.ext file "write" with
      | none =>
        simp [surface_write_to_png, hs, hg, World.query, World.invoke, PyErr_SetString,
          callsSince, increfs]
      | some writer =>
        by_cases hcall : E.PyCallable_Check
            (E.step w.ext (Call.PyObject_GetAttrString file "write")) writer = true
        · by_cases hst : E.cairo_call_status
              (E.step (E.step w.ext (Call.PyObject_GetAttrString file "write"))
                (Call.Py_DECREF writer))
              (Call.cairo_surface_write_to_png_stream o.surface Callback._write_func file)
              = CAIRO_STATUS_SUCCESS <;>
            simp [surface_write_to_png, hs, hg, hcall, hst, World.query, World.invoke,
              RETURN_NULL_IF_CAIRO_ERROR, Pycairo_Check_Status, PyErr_SetString,
              callsSince, increfs]
        · simp [surface_write_to_png, hs, hg, hcall, World.query, World.invoke,
            PyErr_SetString, callsSince, increfs]
  · intro x
    cases hs : E.PyObject_TypeCheck_PyBaseString_Type w.ext file with
    | true =>
      by_cases hst : E.cairo_call_status (E.step w.ext (Call.PyString_AsString file))
          (Call.cairo_surface_write_to_png o.surface (E.PyString_AsString w.ext file))
          = CAIRO_STATUS_SUCCESS <;>
        simp [surface_write_to_png, hs, hst, World.query, World.invoke,
          RETURN_NULL_IF_CAIRO_ERROR, Pycairo_Check_Status, PyErr_SetString, callsSince,
          decrefs]
    | false =>
      cases hg : E.PyObject_GetAttrString w.ext file "write" with
      | none =>
        simp [surface_write_to_png, hs, hg, World.query, World.invoke, PyErr_SetString,
          callsSince, decrefs]
      | some writer =>
        have hcount : List.count (Call.Py_DECREF x) [Call.Py_DECREF writer] =
            if writer = x then 1 else 0 := by
          by_cases hx : writer = x
          · subst hx; simp
          · have hne : Call.Py_DECREF writer ≠ Call.Py_DECREF x :=
              fun h => hx (Call.Py_DECREF.inj h)
            simp [List.count_singleton, hx, hne]
        by_cases hcall : E.PyCallable_Check
            (E.step w.ext (Call.PyObject_GetAttrString file "write")) writer = true
        · by_cases hst : E.cairo_call_status
              (E.step (E.step w.ext (Call.PyObject_GetAttrString file "write"))
                (Call.Py_DECREF writer))
              (Call.cairo_surface_write_to_png_stream o.surface Callback._write_func file)
              = CAIRO_STATUS_SUCCESS
          · have hcalls : callsSince w (surface_write_to_png E o file w).world =
                [Call.PyObject_TypeCheck_PyBaseString_Type file,
                  Call.PyObject_GetAttrString file "write", Call.PyCallable_Check writer]
                ++ [Call.Py_DECREF writer] ++
                [Call.cairo_surface_write_to_png_stream o.surface Callback._write_func
                  file] := by
              simp [surface_write_to_png, hs, hg, hcall, hst, World.query, World.invoke,
                RETURN_NULL_IF_CAIRO_ERROR, Pycairo_Check_Status, PyErr_SetString,
                callsSince]
            rw [hcalls, decrefs, List.count_append, List.count_append, hcount]
            simp
          · have hcalls : callsSince w (surface_write_to_png E o file w).world =
                [Call.PyObject_TypeCheck_PyBaseString_Type file,
                  Call.PyObject_GetAttrString file "write", Call.PyCallable_Check writer]
                ++ [Call.Py_DECREF writer] ++
                [Call.cairo_surface_write_to_png_stream o.surface Callback._write_func
                  file] := by
              simp [surface_write_to_png, hs, hg, hcall, hst, World.query, World.invoke,
                RETURN_NULL_IF_CAIRO_ERROR, Pycairo_Check_Status, PyErr_SetString,
                callsSince]
            rw [hcalls, decrefs, List.count_append, List.count_append, hcount]
            simp
        · have hcalls : callsSince w (surface_write_to_png E o file w).world =
              [Call.PyObject_TypeCheck_PyBaseString_Type file,
                Call.PyObject_GetAttrString file "write", Call.PyCallable_Check writer]
              ++ [Call.Py_DECREF writer] := by
            simp [surface_write_to_png, hs, hg, hcall, World.query, World.invoke,
              PyErr_SetString, callsSince]
          rw [hcalls, decrefs, List.count_append, hcount]
          simp
  · cases hs : E.PyObject_TypeCheck_PyBaseString_Type w.ext file with
    | true =>
      by_cases hst : E.cairo_call_status (E.step w.ext (Call.PyString_AsString file))
          (Call.cairo_surface_write_to_png o.surface (E.PyString_AsString w.ext file))
          = CAIRO_STATUS_SUCCESS <;>
        simp [surface_write_to_png, hs, hst, World.query, World.invoke,
          RETURN_NULL_IF_CAIRO_ERROR, Pycairo_Check_Status, PyErr_SetString, callsSince]
    | false =>
      cases hg : E.PyObject_GetAttrString w.ext file "write" with
      | none =>
        simp [surface_write_to_png, hs, hg, World.query, World.invoke, PyErr_SetString,
          callsSince, write_to_png_message]
      | some writer =>
        by_cases hcall : E.PyCallable_Check
            (E.step w.ext (Call.PyObject_GetAttrString file "write")) writer = true
        · by_cases hst : E.cairo_call_status
              (E.step (E.step w.ext (Call.PyObject_GetAttrString file "write"))
                (Call.Py_DECREF writer))
              (Call.cairo_surface_write_to_png_stream o.surface Callback._write_func file)
              = CAIRO_STATUS_SUCCESS <;>
            simp [surface_write_to_png, hs, hg, hcall, hst, World.query, World.invoke,
              RETURN_NULL_IF_CAIRO_ERROR, Pycairo_Check_Status, PyErr_SetString,
              callsSince]
        · simp [surface_write_to_png, hs, hg, hcall, World.query, World.invoke,
            PyErr_SetString, callsSince, write_to_png_message]

/-! ## Operations after finish -/

/-- What any operation does on a wrapper without keep-alive reference: its native call,
then the status read when its C function makes one, and the result the status
decides. -/
theorem mutating_run_cleared {σ : Type} (E : Env σ) (op : MutatingOp) (o : PycairoSurface)
    (w : World σ) (hbase : o.base = none) :
    (op.run E o w).world.calls =
      w.calls ++ [op.nativeCall o.surface] ++
        (if op.checksStatus = true then [Call.cairo_surface_status o.surface] else []) ∧
    (op.run E o w).ret =
      if op.checksStatus = true ∧
          E.cairo_surface_status (E.step w.ext (op.nativeCall o.surface)) o.surface
            ≠ CAIRO_STATUS_SUCCESS
      then none else some PyValue.None := by
  by_cases hop : op = MutatingOp.finish
  · subst hop
    have hext : finishExt E o w = E.step w.ext (Call.cairo_surface_finish o.surface) := by
      simp [finishExt, hbase]
    refine ⟨?_, ?_⟩
    · simp [MutatingOp.run, MutatingOp.nativeCall, MutatingOp.checksStatus, finish_calls,
        hbase, decrefCalls]
    · simp only [MutatingOp.run, MutatingOp.nativeCall, MutatingOp.checksStatus, finish_ret,
        hext, true_and]
  · exact (mutating_run E op o w hop).2

/-- C17, as stated, fails: with a cairo that flags further changes to a finished surface,
`finish ()` succeeds, and the `set_device_offset` called after it issues its native
call, which changes the state of the surface (its status becomes
`CAIRO_STATUS_SURFACE_FINISHED`), and returns `None`. -/
theorem C17_counterexample :
    (surface_finish finishedEnv
      { ob_type := PyTypeObject.PycairoPDFSurface_Type, surface := some 7, base := some 9 }
      (World.init { finished := false, status := CAIRO_STATUS_SUCCESS })).ret
      = some PyValue.None ∧
    (surface_finish finishedEnv
      { ob_type := PyTypeObject.PycairoPDFSurface_Type, surface := some 7, base := some 9 }
      (World.init { finished := false, status := CAIRO_STATUS_SUCCESS })).world.ext
      = { finished := true, status := CAIRO_STATUS_SUCCESS } ∧
    (surface_set_device_offset finishedEnv
      (surface_finish finishedEnv
        { ob_type := PyTypeObject.PycairoPDFSurface_Type, surface := some 7, base := some 9 }
        (World.init { finished := false, status := CAIRO_STATUS_SUCCESS })).self
      (some (0, 0))
      (surface_finish finishedEnv
        { ob_type := PyTypeObject.PycairoPDFSurface_Type, surface := some 7, base := some 9 }
        (World.init { finished := false, status := CAIRO_STATUS_SUCCESS })).world).ret
      = some PyValue.None ∧
    (surface_set_device_offset finishedEnv
      (surface_finish finishedEnv
        { ob_type := PyTypeObject.PycairoPDFSurface_Type, surface := some 7, base := some 9 }
        (World.init { finished := false, status := CAIRO_STATUS_SUCCESS })).self
      (some (0, 0))
      (surface_finish finishedEnv
        { ob_type := PyTypeObject.PycairoPDFSurface_Type, surface := some 7, base := some 9 }
        (World.init { finished := false, status := CAIRO_STATUS_SUCCESS })).world).world.ext
      = { finished := true, status := CAIRO_STATUS_SURFACE_FINISHED } ∧
    (surface_set_device_offset finishedEnv
      (surface_finish finishedEnv
        { ob_type := PyTypeObject.PycairoPDFSurface_Type, surface := some 7, base := some 9 }
        (World.init { finished := false, status := CAIRO_STATUS_SUCCESS })).self
      (some (0, 0))
      (surface_finish finishedEnv
        { ob_type := PyTypeObject.PycairoPDFSurface_Type, surface := some 7, base := some 9 }
        (World.init { finished := false, status := CAIRO_STATUS_SUCCESS })).world).world.calls
      = [Call.cairo_surface_finish (some 7), Call.Py_DECREF 9,
         Call.cairo_surface_status (some 7),
         Call.cairo_surface_set_device_offset (some 7) 0 0] := by
  refine ⟨?_, ?_, ?_, ?_, ?_⟩ <;> decide

/-- C17, amended: the wrapper keeps no record that `finish ()` was called.  On the
wrapper left by `finish ()`, which holds the same surface pointer, every operation
still issues its native call on that surface.  The operations flush, mark_dirty,
dsc_begin_page_setup, dsc_begin_setup, dsc_comment and finish then read the status and
return `NULL` exactly when it is an error; set_device_offset, set_fallback_resolution
and the set_size of PDF and PS surfaces return `None` whatever the status; and
get_content and get_device_offset only read from cairo and return its answer. -/
theorem C17_operations_after_finish {σ : Type} (E : Env σ) (op : MutatingOp)
    (o : PycairoSurface) (w : World σ) :
    (surface_finish E o w).self.surface = o.surface ∧
    (op.run E (surface_finish E o w).self (surface_finish E o w).world).world.calls =
      (surface_finish E o w).world.calls ++ [op.nativeCall o.surface] ++
        (if op.checksStatus = true then [Call.cairo_surface_status o.surface] else []) ∧
    (op.run E (surface_finish E o w).self (surface_finish E o w).world).ret =
      (if op.checksStatus = true ∧
          E.cairo_surface_status
            (E.step (surface_finish E o w).world.ext (op.nativeCall o.surface)) o.surface
            ≠ CAIRO_STATUS_SUCCESS
        then none else some PyValue.None) ∧
    (surface_get_content E (surface_finish E o w).self (surface_finish E o w).world).world.ext
      = (surface_finish E o w).world.ext ∧
    (surface_get_content E (surface_finish E o w).self (surface_finish E o w).world).ret
      = some (PyValue.Int (E.cairo_int_getter (surface_finish E o w).world.ext
          IntGetter.cairo_surface_get_content o.surface)) ∧
    (surface_get_device_offset E (surface_finish E o w).self
      (surface_finish E o w).world).world.ext = (surface_finish E o w).world.ext ∧
    (surface_get_device_offset E (surface_finish E o w).self
      (surface_finish E o w).world).ret
      = some (PyValue.Doubles
          (E.cairo_surface_get_device_offset (surface_finish E o w).world.ext o.surface).1
          (E.cairo_surface_get_device_offset (surface_finish E o w).world.ext o.surface).2) := by
  have hs : (surface_finish E o w).self.surface = o.surface := by rw [finish_self]
  have hb : (surface_finish E o w).self.base = none := by rw [finish_self]
  have h := mutating_run_cleared E op (surface_finish E o w).self (surface_finish E o w).world hb
  rw [hs] at h
  refine ⟨hs, h.1, h.2, ?_, ?_, ?_, ?_⟩
  · rfl
  · simp [surface_get_content, PyInt_FromLong_getter, hs]
  · rfl
  · simp [surface_get_device_offset, hs]

/-! ## The length check and the format check of create_for_data -/

/-- The result of `image_surface_create_for_data` when the length check refuses the
buffer. -/
theorem create_for_data_refused {σ : Type} (cfg : Config) (E : Env σ) (a : CreateForDataArgs)
    (w : World σ) (len : Nat) (s : Int)
    (hbuf : E.PyObject_AsWriteBuffer w.ext a.obj = some len)
    (hw : 0 < a.width) (hh : 0 < a.height)
    (hs : image_surface_create_for_data_stride a.format a.width (a.stride.getD (-1)) = some s)
    (hlen : c_int (a.height * s) > (len : Int)) :
    image_surface_create_for_data cfg E (some a) w =
      (none,
        { ext := E.step w.ext (Call.PyObject_AsWriteBuffer a.obj),
          calls := w.calls ++ [Call.PyObject_AsWriteBuffer a.obj],
          exc := some (PyExc.TypeError "buffer is not long enough") }) := by
  have hw2 : ¬ a.width ≤ 0 := by omega
  have hh2 : ¬ a.height ≤ 0 := by omega
  simp only [image_surface_create_for_data, hbuf, World.invoke, hw2, hh2, if_false, hs]
  rw [if_pos hlen]
  rfl

/-- The result of `image_surface_create_for_data` when the stride block ends in its
`default:` label. -/
theorem create_for_data_unknown {σ : Type} (cfg : Config) (E : Env σ) (a : CreateForDataArgs)
    (w : World σ) (len : Nat)
    (hbuf : E.PyObject_AsWriteBuffer w.ext a.obj = some len)
    (hw : 0 < a.width) (hh : 0 < a.height)
    (hs : image_surface_create_for_data_stride a.format a.width (a.stride.getD (-1)) = none) :
    image_surface_create_for_data cfg E (some a) w =
      (none,
        { ext := E.step w.ext (Call.PyObject_AsWriteBuffer a.obj),
          calls := w.calls ++ [Call.PyObject_AsWriteBuffer a.obj],
          exc := some (PyExc.CairoError "Unknown format") }) := by
  have hw2 : ¬ a.width ≤ 0 := by omega
  have hh2 : ¬ a.height ≤ 0 := by omega
  simp only [image_surface_create_for_data, hbuf, World.invoke, hw2, hh2, if_false, hs]
  rfl

/-- The stride block ends in its `default:` label exactly for a negative stride and a
format that has no `case`. -/
theorem stride_none_iff (format : cairo_format_t) (width stride : Int) :
    image_surface_create_for_data_stride format width stride = none ↔
      stride < 0 ∧ format ≠ CAIRO_FORMAT_ARGB32 ∧ format ≠ CAIRO_FORMAT_RGB24 ∧
        format ≠ CAIRO_FORMAT_RGB16_565 ∧ format ≠ CAIRO_FORMAT_A8 ∧
        format ≠ CAIRO_FORMAT_A1 := by
  unfold image_surface_create_for_data_stride
  by_cases hs : stride < 0
  · simp only [hs, if_true, true_and]
    by_cases h1 : format = CAIRO_FORMAT_ARGB32 ∨ format = CAIRO_FORMAT_RGB24
    · rw [if_pos h1]
      rcases h1 with h1 | h1 <;> simp [h1]
    · rw [if_neg h1]
      have h1a : format ≠ CAIRO_FORMAT_ARGB32 := fun h => h1 (Or.inl h)
      have h1b : format ≠ CAIRO_FORMAT_RGB24 := fun h => h1 (Or.inr h)
      by_cases h2 : format = CAIRO_FORMAT_RGB16_565
      · simp [h2]
      · rw [if_neg h2]
        by_cases h3 : format = CAIRO_FORMAT_A8
        · simp [h3]
        · rw [if_neg h3]
          by_cases h4 : format = CAIRO_FORMAT_A1
          · simp [h4]
          · rw [if_neg h4]
            simp [h1a, h1b, h2, h3, h4]
  · simp [hs]

/-- The calls `image_surface_create_for_data` adds when every check passes start with
the creating call. -/
theorem create_for_data_reaches {σ : Type} (cfg : Config) (E : Env σ) (a : CreateForDataArgs)
    (w : World σ) (len : Nat) (s : Int)
    (hbuf : E.PyObject_AsWriteBuffer w.ext a.obj = some len)
    (hw : 0 < a.width) (hh : 0 < a.height)
    (hs : image_surface_create_for_data_stride a.format a.width (a.stride.getD (-1)) = some s)
    (hlen : ¬ c_int (a.height * s) > (len : Int)) :
    ∃ tail, callsSince w (image_surface_create_for_data cfg E (some a) w).2 =
        [Call.PyObject_AsWriteBuffer a.obj,
          Call.cairo_image_surface_create_for_data a.obj a.format a.width a.height s] ++ tail ∧
      ∀ c ∈ tail, Call.isCreate c = false := by
  rw [create_for_data_passes cfg E a w len s hbuf hw hh hs hlen]
  exact callsSince_fromSurface cfg E
    (E.cairo_create (E.step w.ext (Call.PyObject_AsWriteBuffer a.obj))
      (Call.cairo_image_surface_create_for_data a.obj a.format a.width a.height s))
    (some a.obj) w
    { ext := E.step (E.step w.ext (Call.PyObject_AsWriteBuffer a.obj))
        (Call.cairo_image_surface_create_for_data a.obj a.format a.width a.height s),
      calls := w.calls ++ [Call.PyObject_AsWriteBuffer a.obj,
        Call.cairo_image_surface_create_for_data a.obj a.format a.width a.height s],
      exc := w.exc } _ rfl

theorem c_int_le_of_nonneg (x : Int) (h : 0 ≤ x) : c_int x ≤ x := by
  unfold c_int
  omega

/-- C21: with `int` as 32-bit wraparound arithmetic, the length check of
`image_surface_create_for_data` can be bypassed, and only by overflow.  There are
positive width and height (ARGB32, width 65536, so stride 262144, and height 16384, with
product 2^32, which is 0 as an `int`) for which the call with a writable buffer of 1
byte passes the check and calls the creation routine of cairo, the buffer being shorter
than the product.  When `width * 4` and `height * stride` both stay below 2^31, a buffer
shorter than `height * stride` is always refused with
`TypeError "buffer is not long enough"` before any creation call. -/
theorem C21_length_check_bypass {σ : Type} (cfg : Config) (E : Env σ)
    (a : CreateForDataArgs) (w : World σ) (len : Nat) (s : Int)
    (hbuf : E.PyObject_AsWriteBuffer w.ext a.obj = some len)
    (hw : 0 < a.width) (hh : 0 < a.height)
    (hs : image_surface_create_for_data_stride a.format a.width (a.stride.getD (-1)) = some s)
    (hrange : a.width * 4 < 2 ^ 31) (hprod : a.height * s < 2 ^ 31)
    (hshort : (len : Int) < a.height * s) :
    (c_int (a.width * 4) = a.width * 4 ∧
      (image_surface_create_for_data cfg E (some a) w).1 = none ∧
      (image_surface_create_for_data cfg E (some a) w).2.exc =
        some (PyExc.TypeError "buffer is not long enough") ∧
      callsSince w (image_surface_create_for_data cfg E (some a) w).2 =
        [Call.PyObject_AsWriteBuffer a.obj]) ∧
    ∃ (width height : Int) (stride : Int) (short : Nat),
      0 < width ∧ 0 < height ∧
      image_surface_create_for_data_stride CAIRO_FORMAT_ARGB32 width (-1) = some stride ∧
      (short : Int) < height * stride ∧
      c_int (height * stride) = 0 ∧
      (image_surface_create_for_data allBackends (bufferEnv short)
        (some { obj := 3, format := CAIRO_FORMAT_ARGB32, width := width, height := height,
                stride := none }) World.start).1.isSome = true ∧
      (callsSince World.start (image_surface_create_for_data allBackends (bufferEnv short)
        (some { obj := 3, format := CAIRO_FORMAT_ARGB32, width := width, height := height,
                stride := none }) World.start).2).count
        (Call.cairo_image_surface_create_for_data 3 CAIRO_FORMAT_ARGB32 width height stride)
        = 1 := by
  refine ⟨⟨c_int_of_range _ (by omega) hrange, ?_⟩, ?_⟩
  · have hc : c_int (a.height * s) = a.height * s := c_int_of_range _ (by omega) hprod
    rw [create_for_data_refused cfg E a w len s hbuf hw hh hs (by rw [hc]; omega)]
    refine ⟨rfl, rfl, ?_⟩
    simp [callsSince]
  · refine ⟨65536, 16384, 262144, 1, by decide, by decide, by decide, by decide, by decide,
      by decide, by decide⟩

/-- C21, at ARGB32, 10 by 10, no stride given and a buffer of 399 bytes: refused. -/
theorem C21_length_check_bypass_witness :
    (image_surface_create_for_data allBackends (bufferEnv 399)
      (some { obj := 3, format := CAIRO_FORMAT_ARGB32, width := 10, height := 10,
              stride := none }) World.start).2.exc =
      some (PyExc.TypeError "buffer is not long enough") :=
  (C21_length_check_bypass allBackends (bufferEnv 399)
    { obj := 3, format := CAIRO_FORMAT_ARGB32, width := 10, height := 10, stride := none }
    World.start 399 40 rfl (by decide) (by decide) (by decide) (by decide) (by decide)
    (by decide)).1.2.2.1

/-- C22: `image_surface_create_for_data` checks the format only when it derives the
stride.  Given a writable buffer and positive width and height, the call fails with
`CairoError "Unknown format"`, right after `PyObject_AsWriteBuffer`, exactly when the
stride is negative (left out, which is -1, or given and negative) and the format is none
of ARGB32, RGB24, RGB16_565, A8 and A1; a negative stride that is given does what a
stride left out does; and with a given stride that is not negative, whatever the format,
the creation routine of cairo is called, with that format and stride, whenever
`height * stride` is at most the length of the buffer. -/
theorem C22_format_checked_only_for_derived_stride {σ : Type} (cfg : Config) (E : Env σ)
    (a : CreateForDataArgs) (w : World σ) (len : Nat)
    (hbuf : E.PyObject_AsWriteBuffer w.ext a.obj = some len)
    (hw : 0 < a.width) (hh : 0 < a.height) :
    (((image_surface_create_for_data cfg E (some a) w).1 = none ∧
        (image_surface_create_for_data cfg E (some a) w).2.exc =
          some (PyExc.CairoError "Unknown format") ∧
        callsSince w (image_surface_create_for_data cfg E (some a) w).2 =
          [Call.PyObject_AsWriteBuffer a.obj]) ↔
      (a.stride.getD (-1) < 0 ∧ a.format ≠ CAIRO_FORMAT_ARGB32 ∧
        a.format ≠ CAIRO_FORMAT_RGB24 ∧ a.format ≠ CAIRO_FORMAT_RGB16_565 ∧
        a.format ≠ CAIRO_FORMAT_A8 ∧ a.format ≠ CAIRO_FORMAT_A1)) ∧
    (∀ s : Int, s < 0 →
      image_surface_create_for_data cfg E (some { a with stride := some s }) w =
        image_surface_create_for_data cfg E (some { a with stride := none }) w) ∧
    (∀ s : Int, a.stride = some s → 0 ≤ s → a.height * s ≤ len →
      (callsSince w (image_surface_create_for_data cfg E (some a) w).2).count
        (Call.cairo_image_surface_create_for_data a.obj a.format a.width a.height s) = 1 ∧
      (callsSince w (image_surface_create_for_data cfg E (some a) w).2).countP Call.isCreate
        = 1) := by
  refine ⟨⟨?_, ?_⟩, ?_, ?_⟩
  · rintro ⟨_, hexc, hcalls⟩
    rw [← stride_none_iff a.format a.width]
    cases hs : image_surface_create_for_data_stride a.format a.width (a.stride.getD (-1)) with
    | none => rfl
    | some s =>
      exfalso
      by_cases hlen : c_int (a.height * s) > (len : Int)
      · rw [create_for_data_refused cfg E a w len s hbuf hw hh hs hlen] at hexc
        simp at hexc
      · obtain ⟨tail, ht, _⟩ := create_for_data_reaches cfg E a w len s hbuf hw hh hs hlen
        rw [ht] at hcalls
        simp at hcalls
  · intro hcond
    have hs := (stride_none_iff a.format a.width (a.stride.getD (-1))).mpr hcond
    rw [create_for_data_unknown cfg E a w len hbuf hw hh hs]
    refine ⟨rfl, rfl, ?_⟩
    simp [callsSince]
  · intro s hneg
    simp [image_surface_create_for_data, image_surface_create_for_data_stride, hneg]
  · intro s hstride hs0 hlen
    have hs : image_surface_create_for_data_stride a.format a.width (a.stride.getD (-1))
        = some s := by
      have : ¬ s < 0 := by omega
      simp [image_surface_create_for_data_stride, hstride, this]
    have hmul : 0 ≤ a.height * s := Int.mul_nonneg (by omega) hs0
    have hle := c_int_le_of_nonneg (a.height * s) hmul
    obtain ⟨tail, ht, htc⟩ := create_for_data_reaches cfg E a w len s hbuf hw hh hs (by omega)
    rw [ht]
    have h1 := countP_tail_zero Call.isCreate tail htc
    have h3 := count_tail_zero
      (Call.cairo_image_surface_create_for_data a.obj a.format a.width a.height s) rfl tail htc
    refine ⟨?_, ?_⟩
    · rw [List.count_append, h3]
      simp [List.count_cons]
    · rw [List.countP_append, h1]
      simp [List.countP_cons, Call.isCreate, Call.isFilenameCreate, Call.isStreamCreate]

/-- C22, at the format 99, which cairo does not have: with the stride left out the call
fails with `CairoError "Unknown format"`, and with the stride 40 given, 10 by 10 and a
buffer of 400 bytes, the creation routine is called with format 99. -/
theorem C22_format_checked_only_for_derived_stride_witness :
    ((image_surface_create_for_data allBackends (bufferEnv 400)
        (some { obj := 3, format := 99, width := 10, height := 10, stride := none })
        World.start).1 = none ∧
      (image_surface_create_for_data allBackends (bufferEnv 400)
        (some { obj := 3, format := 99, width := 10, height := 10, stride := none })
        World.start).2.exc = some (PyExc.CairoError "Unknown format") ∧
      callsSince World.start (image_surface_create_for_data allBackends (bufferEnv 400)
        (some { obj := 3, format := 99, width := 10, height := 10, stride := none })
        World.start).2 = [Call.PyObject_AsWriteBuffer 3]) ∧
    (callsSince World.start (image_surface_create_for_data allBackends (bufferEnv 400)
      (some { obj := 3, format := 99, width := 10, height := 10, stride := some 40 })
      World.start).2).count
      (Call.cairo_image_surface_create_for_data 3 99 10 10 40) = 1 :=
  ⟨(C22_format_checked_only_for_derived_stride allBackends (bufferEnv 400)
      { obj := 3, format := 99, width := 10, height := 10, stride := none }
      World.start 400 rfl (by decide) (by decide)).1.mpr (by decide),
   ((C22_format_checked_only_for_derived_stride allBackends (bufferEnv 400)
      { obj := 3, format := 99, width := 10, height := 10, stride := some 40 }
      World.start 400 rfl (by decide) (by decide)).2.2 40 rfl (by decide) (by decide)).1⟩

/-! ## The buffer interface of ImageSurface -/

/-- C23: the buffer procedures of ImageSurface agree.  For every image surface and every
segment index, `image_surface_buffer_getreadbuf` and `image_surface_buffer_getwritebuf`
give the same result: for a segment other than 0 they return -1 with
`SystemError "accessing non-existent ImageSurface segment"` and store nothing; for
segment 0 they raise nothing, return `height * stride` (as an `int`) of the surface and
store the data pointer of cairo.  `image_surface_buffer_getsegcount` always returns 1,
and when a length is asked for it stores that same `height * stride`. -/
theorem C23_buffer_procedures_agree {σ : Type} (E : Env σ) (o : PycairoSurface)
    (segment : Int) (lenp : Bool) (w : World σ) :
    image_surface_buffer_getreadbuf E o segment w =
      image_surface_buffer_getwritebuf E o segment w ∧
    (if segment ≠ 0 then
      (image_surface_buffer_getreadbuf E o segment w).ret = -1 ∧
      (image_surface_buffer_getreadbuf E o segment w).written = false ∧
      (image_surface_buffer_getreadbuf E o segment w).world.exc =
        some (PyExc.SystemError "accessing non-existent ImageSurface segment") ∧
      (image_surface_buffer_getreadbuf E o segment w).world.calls = w.calls
    else
      (image_surface_buffer_getreadbuf E o segment w).ret =
        c_int (E.cairo_int_getter w.ext IntGetter.cairo_image_surface_get_height o.surface *
          E.cairo_int_getter w.ext IntGetter.cairo_image_surface_get_stride o.surface) ∧
      (image_surface_buffer_getreadbuf E o segment w).written = true ∧
      (image_surface_buffer_getreadbuf E o segment w).ptr =
        E.cairo_image_surface_get_data w.ext o.surface ∧
      (image_surface_buffer_getreadbuf E o segment w).world.exc = w.exc ∧
      (image_surface_buffer_getreadbuf E o segment w).world.calls = w.calls ++
        [Call.cairo_int_getter IntGetter.cairo_image_surface_get_height o.surface,
          Call.cairo_int_getter IntGetter.cairo_image_surface_get_stride o.surface,
          Call.cairo_image_surface_get_data o.surface]) ∧
    (image_surface_buffer_getsegcount E o lenp w).1 = 1 ∧
    (image_surface_buffer_getsegcount E o lenp w).2.1 =
      (if lenp = true then some (image_surface_buffer_getreadbuf E o 0 w).ret else none) ∧
    (image_surface_buffer_getsegcount E o lenp w).2.2.exc = w.exc := by
  refine ⟨rfl, ?_, ?_, ?_, ?_⟩
  · by_cases hseg : segment ≠ 0
    · rw [if_pos hseg]
      simp [image_surface_buffer_getreadbuf, hseg, PyErr_SetString]
    · rw [if_neg hseg]
      simp [image_surface_buffer_getreadbuf, hseg, World.query]
  · cases lenp <;> simp [image_surface_buffer_getsegcount]
  · cases lenp <;>
      simp [image_surface_buffer_getsegcount, image_surface_buffer_getreadbuf, World.query]
  · cases lenp <;> simp [image_surface_buffer_getsegcount, World.query]

/-! ## The read callback and the memory of the string -/

/-- What `_read_func` copies when the string is still in memory: if `read (n)`, for
`n` below 2^31, returns a string of `n` bytes that the memory still holds after the
reference was dropped, `_read_func` returns `CAIRO_STATUS_SUCCESS` and stores exactly
those bytes. -/
theorem read_func_copies_live_string {σ : Type} (E : Env σ) (closure : PyObj) (n : Nat)
    (w : World σ) (p : PyObj) (b : List Byte) (hn : n < 2 ^ 31)
    (hread : E.PyObject_CallMethod w.ext closure "read" (PyArg.int n) = some p)
    (hstr : E.PyString_AsString
      (E.step w.ext (Call.PyObject_CallMethod closure "read" (PyArg.int n))) p = some b)
    (hmem : E.string_memory
      (E.step (E.step (E.step w.ext (Call.PyObject_CallMethod closure "read" (PyArg.int n)))
        (Call.PyString_AsString p)) (Call.Py_DECREF p)) p = b)
    (hlen : b.length = n) :
    (_read_func E closure n w).1 = CAIRO_STATUS_SUCCESS ∧
    (_read_func E closure n w).2.1 = some b := by
  have hc : c_int (n : Int) = (n : Int) := c_int_of_range _ (by omega) (by exact_mod_cast hn)
  refine ⟨?_, ?_⟩
  · simp [_read_func, hc, hread, World.invoke, hstr]
  · subst hlen
    simp [_read_func, hc, hread, World.invoke, hstr, hmem, memcpy]

/-- On an accumulating byte stream whose strings stay alive, fewer than 2^31 bytes
pushed through `_write_func` come back unchanged through `_read_func`. -/
theorem stream_round_trip (before data : List Byte) (sink source : PyObj) (last : List Byte)
    (hn : data.length < 2 ^ 31) :
    (_read_func streamEnv source data.length
      (_write_func streamEnv sink data data.length
        (World.init { written := before, position := before.length, last := last })).2).1
      = CAIRO_STATUS_SUCCESS ∧
    (_read_func streamEnv source data.length
      (_write_func streamEnv sink data data.length
        (World.init { written := before, position := before.length, last := last })).2).2.1
      = some data := by
  have hc : c_int (data.length : Int) = (data.length : Int) :=
    c_int_of_range _ (by omega) (by exact_mod_cast hn)
  simp [_write_func, _read_func, streamEnv, World.invoke, World.init, memcpy, hc]

/-- C11, the code at a string that `read` returns with no other reference: `read (3)`
returns object 1, a string holding the bytes 1, 0, 2; `_read_func` drops its reference
before `memcpy`, the string is freed and its memory filled with 0xDB, and `_read_func`
returns `CAIRO_STATUS_SUCCESS` having stored 0xDB, 0xDB, 0xDB, not the bytes read.  And
at a length of 2^31, the integer handed to `read` is -2147483648, not the length. -/
theorem C11_copy_after_release :
    freedEnv.PyObject_CallMethod false 9 "read" (PyArg.int 3) = some 1 ∧
    freedEnv.PyString_AsString false 1 = some [1, 0, 2] ∧
    (_read_func freedEnv 9 3 (World.init false)).1 = CAIRO_STATUS_SUCCESS ∧
    (_read_func freedEnv 9 3 (World.init false)).2.1 = some [0xDB, 0xDB, 0xDB] ∧
    (_read_func freedEnv 9 3 (World.init false)).2.2.calls =
      [Call.PyObject_CallMethod 9 "read" (PyArg.int 3), Call.PyString_AsString 1,
        Call.Py_DECREF 1] ∧
    (_read_func freedEnv 9 2147483648 (World.init false)).2.2.calls =
      [Call.PyObject_CallMethod 9 "read" (PyArg.int (-2147483648)),
        Call.PyString_AsString 1, Call.Py_DECREF 1] := by
  refine ⟨?_, ?_, ?_, ?_, ?_, ?_⟩ <;> decide

/-! ## The stride handed to cairo -/

/-- The stride handed to cairo when nothing overflows: for a writable buffer, positive
width and height and a width whose stride fits an `int`, when the buffer is long enough
the creation routine is called once, with the stride of the rule. -/
theorem create_for_data_stride_in_range {σ : Type} (cfg : Config) (E : Env σ)
    (a : CreateForDataArgs) (w : World σ) (len : Nat) (s : Int)
    (hbuf : E.PyObject_AsWriteBuffer w.ext a.obj = some len)
    (hw : 0 < a.width) (hh : 0 < a.height) (hrange : a.width * 4 < 2 ^ 31)
    (hs : strideRule a.format a.width a.stride = some s)
    (hs0 : 0 ≤ s) (hlen : a.height * s ≤ len) :
    (callsSince w (image_surface_create_for_data cfg E (some a) w).2).count
      (Call.cairo_image_surface_create_for_data a.obj a.format a.width a.height s) = 1 ∧
    (callsSince w (image_surface_create_for_data cfg E (some a) w).2).countP Call.isCreate
      = 1 := by
  have hcode := stride_refines_rule a.format a.width a.stride s hw hrange hs
  have hmul : 0 ≤ a.height * s := Int.mul_nonneg (by omega) hs0
  have hle := c_int_le_of_nonneg (a.height * s) hmul
  obtain ⟨tail, ht, htc⟩ := create_for_data_reaches cfg E a w len s hbuf hw hh hcode (by omega)
  rw [ht]
  have h1 := countP_tail_zero Call.isCreate tail htc
  have h3 := count_tail_zero
    (Call.cairo_image_surface_create_for_data a.obj a.format a.width a.height s) rfl tail htc
  refine ⟨?_, ?_⟩
  · rw [List.count_append, h3]
    simp [List.count_cons]
  · rw [List.countP_append, h1]
    simp [List.countP_cons, Call.isCreate, Call.isFilenameCreate, Call.isStreamCreate]

/-- C15, the code at a width whose stride does not fit an `int`: for ARGB32, width
536870912, height 1 and no stride, the rule gives the stride 2147483648, the `int`
product `width * 4` is -2147483648, the length check passes, and the creation routine of
cairo is called with the stride -2147483648.  Next to it, the rule at ordinary widths:
ARGB32 and RGB24 at width 10 give 40, RGB16_565 gives 20, A8 gives 10, A1 at width 17
gives 2, and a given stride of 64 is kept. -/
theorem C15_stride_overflow :
    strideRule CAIRO_FORMAT_ARGB32 536870912 none = some 2147483648 ∧
    image_surface_create_for_data_stride CAIRO_FORMAT_ARGB32 536870912 (-1)
      = some (-2147483648) ∧
    (image_surface_create_for_data allBackends (bufferEnv 4)
      (some { obj := 3, format := CAIRO_FORMAT_ARGB32, width := 536870912, height := 1,
              stride := none }) World.start).2.calls =
      [Call.PyObject_AsWriteBuffer 3,
       Call.cairo_image_surface_create_for_data 3 CAIRO_FORMAT_ARGB32 536870912 1
         (-2147483648),
       Call.cairo_surface_status (some 7), Call.cairo_surface_get_type 7,
       Call.tp_alloc PyTypeObject.PycairoImageSurface_Type, Call.Py_INCREF 3] ∧
    image_surface_create_for_data_stride CAIRO_FORMAT_ARGB32 10 (-1) = some 40 ∧
    image_surface_create_for_data_stride CAIRO_FORMAT_RGB24 10 (-1) = some 40 ∧
    image_surface_create_for_data_stride CAIRO_FORMAT_RGB16_565 10 (-1) = some 20 ∧
    image_surface_create_for_data_stride CAIRO_FORMAT_A8 10 (-1) = some 10 ∧
    image_surface_create_for_data_stride CAIRO_FORMAT_A1 17 (-1) = some 2 ∧
    image_surface_create_for_data_stride CAIRO_FORMAT_ARGB32 10 64 = some 64 := by
  refine ⟨?_, ?_, ?_, ?_, ?_, ?_, ?_, ?_, ?_⟩ <;> decide

end Pycairo
